import Mathlib

/-
Verification of the jgrapht C backend wrapper (src/jgrapht/backend.c).

The wrapper is embedded as an abstract syntax tree: every function of the
file is one `CFun` value recording its name, return type, parameters and
body.  Almost every body is a single forwarding call to the corresponding
`jgrapht_capi_*` function with the static `thread` pointer as first
argument; the three isolate lifecycle functions have custom bodies that
manage the static `thread`/`isolate` state and are modelled by dedicated
body constructors whose semantics is given in `runBackend` below.

Behaviour of the external `jgrapht_capi_*` library is not part of the
repository; where a claim depends on it, a definition carrying a doc
comment starting with "Modelled from the spec:" models the missing code
from the specification's words.
-/

namespace JGraphtBackend

set_option maxRecDepth 100000

/-- C types occurring in the signatures of backend.c. -/
inductive CType where
  | cvoid : CType
  | cint : CType
  | clonglong : CType
  | cdouble : CType
  | cstring : CType
  | ccharptrptr : CType
  | cvoidptr : CType
  | cvoidptrptr : CType
  | cintptr : CType
  | cdoubleptr : CType
  | clonglongptr : CType
  | cstatus : CType
  | cdimacsfmt : CType
  | ccsvfmt : CType
deriving DecidableEq

/-- a formal parameter of a wrapper function: its name and C type. -/
structure CParam where
  pname : String
  pty : CType
deriving DecidableEq

/-- an argument expression in the single call a wrapper body makes: either the
static `thread` pointer or the i-th formal parameter of the wrapper. -/
inductive CallArg where
  | thread : CallArg
  | param : Nat → CallArg
deriving DecidableEq

/-- body of a wrapper function: either a single (possibly returned) call to a
callee with the given arguments, or one of the three handwritten isolate
lifecycle bodies (lines 12-34 of backend.c). -/
inductive FnBody where
  | forward : String → List CallArg → FnBody
  | isolateCreateBody : FnBody
  | isolateDestroyBody : FnBody
  | isolateIsAttachedBody : FnBody
deriving DecidableEq

/-- one function definition of backend.c. -/
structure CFun where
  fname : String
  ret : CType
  params : List CParam
  body : FnBody
deriving DecidableEq

/-- all 288 function definitions of src/jgrapht/backend.c, in file order. -/
def backendFuns : List CFun := [
CFun.mk "jgrapht_isolate_create" CType.cvoid
  []
  FnBody.isolateCreateBody,
CFun.mk "jgrapht_isolate_destroy" CType.cvoid
  []
  FnBody.isolateDestroyBody,
CFun.mk "jgrapht_isolate_is_attached" CType.cint
  []
  FnBody.isolateIsAttachedBody,
CFun.mk "jgrapht_attributes_store_create" CType.cint
  [CParam.mk "res" CType.cvoidptrptr]
  (FnBody.forward "jgrapht_capi_attributes_store_create" [CallArg.thread, CallArg.param 0]),
CFun.mk "jgrapht_attributes_store_put_boolean_attribute" CType.cint
  [CParam.mk "store" CType.cvoidptr, CParam.mk "element" CType.cint, CParam.mk "key" CType.cstring, CParam.mk "value" CType.cint]
  (FnBody.forward "jgrapht_capi_attributes_store_put_boolean_attribute" [CallArg.thread, CallArg.param 0, CallArg.param 1, CallArg.param 2, CallArg.param 3]),
CFun.mk "jgrapht_attributes_store_put_int_attribute" CType.cint
  [CParam.mk "store" CType.cvoidptr, CParam.mk "element" CType.cint, CParam.mk "key" CType.cstring, CParam.mk "value" CType.cint]
  (FnBody.forward "jgrapht_capi_attributes_store_put_int_attribute" [CallArg.thread, CallArg.param 0, CallArg.param 1, CallArg.param 2, CallArg.param 3]),
CFun.mk "jgrapht_attributes_store_put_long_attribute" CType.cint
  [CParam.mk "store" CType.cvoidptr, CParam.mk "element" CType.clonglong, CParam.mk "key" CType.cstring, CParam.mk "value" CType.cint]
  (FnBody.forward "jgrapht_capi_attributes_store_put_long_attribute" [CallArg.thread, CallArg.param 0, CallArg.param 1, CallArg.param 2, CallArg.param 3]),
CFun.mk "jgrapht_attributes_store_put_double_attribute" CType.cint
  [CParam.mk "store" CType.cvoidptr, CParam.mk "element" CType.cint, CParam.mk "key" CType.cstring, CParam.mk "value" CType.cdouble]
  (FnBody.forward "jgrapht_capi_attributes_store_put_double_attribute" [CallArg.thread, CallArg.param 0, CallArg.param 1, CallArg.param 2, CallArg.param 3]),
CFun.mk "jgrapht_attributes_store_put_string_attribute" CType.cint
  [CParam.mk "store" CType.cvoidptr, CParam.mk "element" CType.cint, CParam.mk "key" CType.cstring, CParam.mk "value" CType.cstring]
  (FnBody.forward "jgrapht_capi_attributes_store_put_string_attribute" [CallArg.thread, CallArg.param 0, CallArg.param 1, CallArg.param 2, CallArg.param 3]),
CFun.mk "jgrapht_attributes_store_remove_attribute" CType.cint
  [CParam.mk "store" CType.cvoidptr, CParam.mk "element" CType.cint, CParam.mk "key" CType.cstring]
  (FnBody.forward "jgrapht_capi_attributes_store_remove_attribute" [CallArg.thread, CallArg.param 0, CallArg.param 1, CallArg.param 2]),
CFun.mk "jgrapht_attributes_registry_create" CType.cint
  [CParam.mk "res" CType.cvoidptrptr]
  (FnBody.forward "jgrapht_capi_attributes_registry_create" [CallArg.thread, CallArg.param 0]),
CFun.mk "jgrapht_attributes_registry_register_attribute" CType.cint
  [CParam.mk "registry" CType.cvoidptr, CParam.mk "name" CType.cstring, CParam.mk "category" CType.cstring, CParam.mk "type" CType.cstring, CParam.mk "default_value" CType.cstring]
  (FnBody.forward "jgrapht_capi_attributes_registry_register_attribute" [CallArg.thread, CallArg.param 0, CallArg.param 1, CallArg.param 2, CallArg.param 3, CallArg.param 4]),
CFun.mk "jgrapht_attributes_registry_unregister_attribute" CType.cint
  [CParam.mk "registry" CType.cvoidptr, CParam.mk "name" CType.cstring, CParam.mk "category" CType.cstring, CParam.mk "type" CType.cstring, CParam.mk "default_value" CType.cstring]
  (FnBody.forward "jgrapht_capi_attributes_registry_unregister_attribute" [CallArg.thread, CallArg.param 0, CallArg.param 1, CallArg.param 2, CallArg.param 3, CallArg.param 4]),
CFun.mk "jgrapht_clique_exec_bron_kerbosch" CType.cint
  [CParam.mk "g" CType.cvoidptr, CParam.mk "timeout" CType.clonglong, CParam.mk "res" CType.cvoidptrptr]
  (FnBody.forward "jgrapht_capi_clique_exec_bron_kerbosch" [CallArg.thread, CallArg.param 0, CallArg.param 1, CallArg.param 2]),
CFun.mk "jgrapht_clique_exec_bron_kerbosch_pivot" CType.cint
  [CParam.mk "g" CType.cvoidptr, CParam.mk "timeout" CType.clonglong, CParam.mk "res" CType.cvoidptrptr]
  (FnBody.forward "jgrapht_capi_clique_exec_bron_kerbosch_pivot" [CallArg.thread, CallArg.param 0, CallArg.param 1, CallArg.param 2]),
CFun.mk "jgrapht_clique_exec_bron_kerbosch_pivot_degeneracy_ordering" CType.cint
  [CParam.mk "g" CType.cvoidptr, CParam.mk "timeout" CType.clonglong, CParam.mk "res" CType.cvoidptrptr]
  (FnBody.forward "jgrapht_capi_clique_exec_bron_kerbosch_pivot_degeneracy_ordering" [CallArg.thread, CallArg.param 0, CallArg.param 1, CallArg.param 2]),
CFun.mk "jgrapht_clustering_exec_k_spanning_tree" CType.cint
  [CParam.mk "g" CType.cvoidptr, CParam.mk "k" CType.cint, CParam.mk "res" CType.cvoidptrptr]
  (FnBody.forward "jgrapht_capi_clustering_exec_k_spanning_tree" [CallArg.thread, CallArg.param 0, CallArg.param 1, CallArg.param 2]),
CFun.mk "jgrapht_clustering_exec_label_propagation" CType.cint
  [CParam.mk "g" CType.cvoidptr, CParam.mk "max_iterations" CType.cint, CParam.mk "seed" CType.clonglong, CParam.mk "res" CType.cvoidptrptr]
  (FnBody.forward "jgrapht_capi_clustering_exec_label_propagation" [CallArg.thread, CallArg.param 0, CallArg.param 1, CallArg.param 2, CallArg.param 3]),
CFun.mk "jgrapht_clustering_get_number_clusters" CType.cint
  [CParam.mk "clustering" CType.cvoidptr, CParam.mk "res" CType.cintptr]
  (FnBody.forward "jgrapht_capi_clustering_get_number_clusters" [CallArg.thread, CallArg.param 0, CallArg.param 1]),
CFun.mk "jgrapht_clustering_ith_cluster_vit" CType.cint
  [CParam.mk "clustering" CType.cvoidptr, CParam.mk "i" CType.cint, CParam.mk "res" CType.cvoidptrptr]
  (FnBody.forward "jgrapht_capi_clustering_ith_cluster_vit" [CallArg.thread, CallArg.param 0, CallArg.param 1, CallArg.param 2]),
CFun.mk "jgrapht_coloring_exec_greedy" CType.cint
  [CParam.mk "g" CType.cvoidptr, CParam.mk "colors_res" CType.cintptr, CParam.mk "res" CType.cvoidptrptr]
  (FnBody.forward "jgrapht_capi_coloring_exec_greedy" [CallArg.thread, CallArg.param 0, CallArg.param 1, CallArg.param 2]),
CFun.mk "jgrapht_coloring_exec_greedy_smallestdegreelast" CType.cint
  [CParam.mk "g" CType.cvoidptr, CParam.mk "colors_res" CType.cintptr, CParam.mk "res" CType.cvoidptrptr]
  (FnBody.forward "jgrapht_capi_coloring_exec_greedy_smallestdegreelast" [CallArg.thread, CallArg.param 0, CallArg.param 1, CallArg.param 2]),
CFun.mk "jgrapht_coloring_exec_backtracking_brown" CType.cint
  [CParam.mk "g" CType.cvoidptr, CParam.mk "colors_res" CType.cintptr, CParam.mk "res" CType.cvoidptrptr]
  (FnBody.forward "jgrapht_capi_coloring_exec_backtracking_brown" [CallArg.thread, CallArg.param 0, CallArg.param 1, CallArg.param 2]),
CFun.mk "jgrapht_coloring_exec_greedy_largestdegreefirst" CType.cint
  [CParam.mk "g" CType.cvoidptr, CParam.mk "colors_res" CType.cintptr, CParam.mk "res" CType.cvoidptrptr]
  (FnBody.forward "jgrapht_capi_coloring_exec_greedy_largestdegreefirst" [CallArg.thread, CallArg.param 0, CallArg.param 1, CallArg.param 2]),
CFun.mk "jgrapht_coloring_exec_greedy_random" CType.cint
  [CParam.mk "g" CType.cvoidptr, CParam.mk "colors_res" CType.cintptr, CParam.mk "res" CType.cvoidptrptr]
  (FnBody.forward "jgrapht_capi_coloring_exec_greedy_random" [CallArg.thread, CallArg.param 0, CallArg.param 1, CallArg.param 2]),
CFun.mk "jgrapht_coloring_exec_greedy_random_with_seed" CType.cint
  [CParam.mk "g" CType.cvoidptr, CParam.mk "seed" CType.clonglong, CParam.mk "colors_res" CType.cintptr, CParam.mk "res" CType.cvoidptrptr]
  (FnBody.forward "jgrapht_capi_coloring_exec_greedy_random_with_seed" [CallArg.thread, CallArg.param 0, CallArg.param 1, CallArg.param 2, CallArg.param 3]),
CFun.mk "jgrapht_coloring_exec_greedy_dsatur" CType.cint
  [CParam.mk "g" CType.cvoidptr, CParam.mk "colors_res" CType.cintptr, CParam.mk "res" CType.cvoidptrptr]
  (FnBody.forward "jgrapht_capi_coloring_exec_greedy_dsatur" [CallArg.thread, CallArg.param 0, CallArg.param 1, CallArg.param 2]),
CFun.mk "jgrapht_coloring_exec_color_refinement" CType.cint
  [CParam.mk "g" CType.cvoidptr, CParam.mk "colors_res" CType.cintptr, CParam.mk "res" CType.cvoidptrptr]
  (FnBody.forward "jgrapht_capi_coloring_exec_color_refinement" [CallArg.thread, CallArg.param 0, CallArg.param 1, CallArg.param 2]),
CFun.mk "jgrapht_connectivity_strong_exec_kosaraju" CType.cint
  [CParam.mk "g" CType.cvoidptr, CParam.mk "is_connected_res" CType.cintptr, CParam.mk "res" CType.cvoidptrptr]
  (FnBody.forward "jgrapht_capi_connectivity_strong_exec_kosaraju" [CallArg.thread, CallArg.param 0, CallArg.param 1, CallArg.param 2]),
CFun.mk "jgrapht_connectivity_strong_exec_gabow" CType.cint
  [CParam.mk "g" CType.cvoidptr, CParam.mk "is_connected_res" CType.cintptr, CParam.mk "res" CType.cvoidptrptr]
  (FnBody.forward "jgrapht_capi_connectivity_strong_exec_gabow" [CallArg.thread, CallArg.param 0, CallArg.param 1, CallArg.param 2]),
CFun.mk "jgrapht_connectivity_weak_exec_bfs" CType.cint
  [CParam.mk "g" CType.cvoidptr, CParam.mk "is_connected_res" CType.cintptr, CParam.mk "res" CType.cvoidptrptr]
  (FnBody.forward "jgrapht_capi_connectivity_weak_exec_bfs" [CallArg.thread, CallArg.param 0, CallArg.param 1, CallArg.param 2]),
CFun.mk "jgrapht_cut_exec_stoer_wagner" CType.cint
  [CParam.mk "g" CType.cvoidptr, CParam.mk "weight" CType.cdoubleptr, CParam.mk "res" CType.cvoidptrptr]
  (FnBody.forward "jgrapht_capi_cut_exec_stoer_wagner" [CallArg.thread, CallArg.param 0, CallArg.param 1, CallArg.param 2]),
CFun.mk "jgrapht_cycles_eulerian_exec_hierholzer" CType.cint
  [CParam.mk "g" CType.cvoidptr, CParam.mk "is_eulerian_res" CType.cintptr, CParam.mk "res" CType.cvoidptrptr]
  (FnBody.forward "jgrapht_capi_cycles_eulerian_exec_hierholzer" [CallArg.thread, CallArg.param 0, CallArg.param 1, CallArg.param 2]),
CFun.mk "jgrapht_cycles_chinese_postman_exec_edmonds_johnson" CType.cint
  [CParam.mk "g" CType.cvoidptr, CParam.mk "res" CType.cvoidptrptr]
  (FnBody.forward "jgrapht_capi_cycles_chinese_postman_exec_edmonds_johnson" [CallArg.thread, CallArg.param 0, CallArg.param 1]),
CFun.mk "jgrapht_cycles_simple_enumeration_exec_tarjan" CType.cint
  [CParam.mk "g" CType.cvoidptr, CParam.mk "res" CType.cvoidptrptr]
  (FnBody.forward "jgrapht_capi_cycles_simple_enumeration_exec_tarjan" [CallArg.thread, CallArg.param 0, CallArg.param 1]),
CFun.mk "jgrapht_cycles_simple_enumeration_exec_tiernan" CType.cint
  [CParam.mk "g" CType.cvoidptr, CParam.mk "res" CType.cvoidptrptr]
  (FnBody.forward "jgrapht_capi_cycles_simple_enumeration_exec_tiernan" [CallArg.thread, CallArg.param 0, CallArg.param 1]),
CFun.mk "jgrapht_cycles_simple_enumeration_exec_szwarcfiter_lauer" CType.cint
  [CParam.mk "g" CType.cvoidptr, CParam.mk "res" CType.cvoidptrptr]
  (FnBody.forward "jgrapht_capi_cycles_simple_enumeration_exec_szwarcfiter_lauer" [CallArg.thread, CallArg.param 0, CallArg.param 1]),
CFun.mk "jgrapht_cycles_simple_enumeration_exec_johnson" CType.cint
  [CParam.mk "g" CType.cvoidptr, CParam.mk "res" CType.cvoidptrptr]
  (FnBody.forward "jgrapht_capi_cycles_simple_enumeration_exec_johnson" [CallArg.thread, CallArg.param 0, CallArg.param 1]),
CFun.mk "jgrapht_cycles_simple_enumeration_exec_hawick_james" CType.cint
  [CParam.mk "g" CType.cvoidptr, CParam.mk "res" CType.cvoidptrptr]
  (FnBody.forward "jgrapht_capi_cycles_simple_enumeration_exec_hawick_james" [CallArg.thread, CallArg.param 0, CallArg.param 1]),
CFun.mk "jgrapht_cycles_fundamental_basis_exec_queue_bfs" CType.cint
  [CParam.mk "g" CType.cvoidptr, CParam.mk "weight_res" CType.cdoubleptr, CParam.mk "res" CType.cvoidptrptr]
  (FnBody.forward "jgrapht_capi_cycles_fundamental_basis_exec_queue_bfs" [CallArg.thread, CallArg.param 0, CallArg.param 1, CallArg.param 2]),
CFun.mk "jgrapht_cycles_fundamental_basis_exec_stack_bfs" CType.cint
  [CParam.mk "g" CType.cvoidptr, CParam.mk "weight_res" CType.cdoubleptr, CParam.mk "res" CType.cvoidptrptr]
  (FnBody.forward "jgrapht_capi_cycles_fundamental_basis_exec_stack_bfs" [CallArg.thread, CallArg.param 0, CallArg.param 1, CallArg.param 2]),
CFun.mk "jgrapht_cycles_fundamental_basis_exec_paton" CType.cint
  [CParam.mk "g" CType.cvoidptr, CParam.mk "weight_res" CType.cdoubleptr, CParam.mk "res" CType.cvoidptrptr]
  (FnBody.forward "jgrapht_capi_cycles_fundamental_basis_exec_paton" [CallArg.thread, CallArg.param 0, CallArg.param 1, CallArg.param 2]),
CFun.mk "jgrapht_error_clear_errno" CType.cvoid
  []
  (FnBody.forward "jgrapht_capi_error_clear_errno" [CallArg.thread]),
CFun.mk "jgrapht_error_get_errno" CType.cstatus
  []
  (FnBody.forward "jgrapht_capi_error_get_errno" [CallArg.thread]),
CFun.mk "jgrapht_error_get_errno_msg" CType.cstring
  []
  (FnBody.forward "jgrapht_capi_error_get_errno_msg" [CallArg.thread]),
CFun.mk "jgrapht_error_print_stack_trace" CType.cvoid
  []
  (FnBody.forward "jgrapht_capi_error_print_stack_trace" [CallArg.thread]),
CFun.mk "jgrapht_export_file_dimacs" CType.cint
  [CParam.mk "g" CType.cvoidptr, CParam.mk "filename" CType.cstring, CParam.mk "format" CType.cdimacsfmt, CParam.mk "export_edge_weights" CType.cint]
  (FnBody.forward "jgrapht_capi_export_file_dimacs" [CallArg.thread, CallArg.param 0, CallArg.param 1, CallArg.param 2, CallArg.param 3]),
CFun.mk "jgrapht_export_string_dimacs" CType.cint
  [CParam.mk "g" CType.cvoidptr, CParam.mk "format" CType.cdimacsfmt, CParam.mk "export_edge_weights" CType.cint, CParam.mk "res" CType.cvoidptrptr]
  (FnBody.forward "jgrapht_capi_export_string_dimacs" [CallArg.thread, CallArg.param 0, CallArg.param 1, CallArg.param 2, CallArg.param 3]),
CFun.mk "jgrapht_export_file_gml" CType.cint
  [CParam.mk "g" CType.cvoidptr, CParam.mk "filename" CType.cstring, CParam.mk "export_edge_weights" CType.cint, CParam.mk "vertex_attribute_store" CType.cvoidptr, CParam.mk "edge_attribute_store" CType.cvoidptr]
  (FnBody.forward "jgrapht_capi_export_file_gml" [CallArg.thread, CallArg.param 0, CallArg.param 1, CallArg.param 2, CallArg.param 3, CallArg.param 4]),
CFun.mk "jgrapht_export_string_gml" CType.cint
  [CParam.mk "g" CType.cvoidptr, CParam.mk "export_edge_weights" CType.cint, CParam.mk "vertex_attribute_store" CType.cvoidptr, CParam.mk "edge_attribute_store" CType.cvoidptr, CParam.mk "res" CType.cvoidptrptr]
  (FnBody.forward "jgrapht_capi_export_string_gml" [CallArg.thread, CallArg.param 0, CallArg.param 1, CallArg.param 2, CallArg.param 3, CallArg.param 4]),
CFun.mk "jgrapht_export_file_json" CType.cint
  [CParam.mk "g" CType.cvoidptr, CParam.mk "filename" CType.cstring, CParam.mk "vertex_attribute_store" CType.cvoidptr, CParam.mk "edge_attribute_store" CType.cvoidptr]
  (FnBody.forward "jgrapht_capi_export_file_json" [CallArg.thread, CallArg.param 0, CallArg.param 1, CallArg.param 2, CallArg.param 3]),
CFun.mk "jgrapht_export_string_json" CType.cint
  [CParam.mk "g" CType.cvoidptr, CParam.mk "vertex_attribute_store" CType.cvoidptr, CParam.mk "edge_attribute_store" CType.cvoidptr, CParam.mk "res" CType.cvoidptrptr]
  (FnBody.forward "jgrapht_capi_export_string_json" [CallArg.thread, CallArg.param 0, CallArg.param 1, CallArg.param 2, CallArg.param 3]),
CFun.mk "jgrapht_export_file_lemon" CType.cint
  [CParam.mk "g" CType.cvoidptr, CParam.mk "filename" CType.cstring, CParam.mk "export_edge_weights" CType.cint, CParam.mk "escape_strings_as_java" CType.cint]
  (FnBody.forward "jgrapht_capi_export_file_lemon" [CallArg.thread, CallArg.param 0, CallArg.param 1, CallArg.param 2, CallArg.param 3]),
CFun.mk "jgrapht_export_string_lemon" CType.cint
  [CParam.mk "g" CType.cvoidptr, CParam.mk "export_edge_weights" CType.cint, CParam.mk "escape_strings_as_java" CType.cint, CParam.mk "res" CType.cvoidptrptr]
  (FnBody.forward "jgrapht_capi_export_string_lemon" [CallArg.thread, CallArg.param 0, CallArg.param 1, CallArg.param 2, CallArg.param 3]),
CFun.mk "jgrapht_export_file_csv" CType.cint
  [CParam.mk "g" CType.cvoidptr, CParam.mk "filename" CType.cstring, CParam.mk "format" CType.ccsvfmt, CParam.mk "export_edge_weights" CType.cint, CParam.mk "matrix_format_nodeid" CType.cint, CParam.mk "matrix_format_zero_when_no_edge" CType.cint]
  (FnBody.forward "jgrapht_capi_export_file_csv" [CallArg.thread, CallArg.param 0, CallArg.param 1, CallArg.param 2, CallArg.param 3, CallArg.param 4, CallArg.param 5]),
CFun.mk "jgrapht_export_string_csv" CType.cint
  [CParam.mk "g" CType.cvoidptr, CParam.mk "format" CType.ccsvfmt, CParam.mk "export_edge_weights" CType.cint, CParam.mk "matrix_format_nodeid" CType.cint, CParam.mk "matrix_format_zero_when_no_edge" CType.cint, CParam.mk "res" CType.cvoidptrptr]
  (FnBody.forward "jgrapht_capi_export_string_csv" [CallArg.thread, CallArg.param 0, CallArg.param 1, CallArg.param 2, CallArg.param 3, CallArg.param 4, CallArg.param 5]),
CFun.mk "jgrapht_export_file_gexf" CType.cint
  [CParam.mk "g" CType.cvoidptr, CParam.mk "filename" CType.cstring, CParam.mk "attributes_registry" CType.cvoidptr, CParam.mk "vertex_attribute_store" CType.cvoidptr, CParam.mk "edge_attribute_store" CType.cvoidptr, CParam.mk "export_edge_weights" CType.cint, CParam.mk "export_edge_labels" CType.cint, CParam.mk "export_edge_types" CType.cint, CParam.mk "export_meta" CType.cint]
  (FnBody.forward "jgrapht_capi_export_file_gexf" [CallArg.thread, CallArg.param 0, CallArg.param 1, CallArg.param 2, CallArg.param 3, CallArg.param 4, CallArg.param 5, CallArg.param 6, CallArg.param 7, CallArg.param 8]),
CFun.mk "jgrapht_export_string_gexf" CType.cint
  [CParam.mk "g" CType.cvoidptr, CParam.mk "attributes_registry" CType.cvoidptr, CParam.mk "vertex_attribute_store" CType.cvoidptr, CParam.mk "edge_attribute_store" CType.cvoidptr, CParam.mk "export_edge_weights" CType.cint, CParam.mk "export_edge_labels" CType.cint, CParam.mk "export_edge_types" CType.cint, CParam.mk "export_meta" CType.cint, CParam.mk "res" CType.cvoidptrptr]
  (FnBody.forward "jgrapht_capi_export_string_gexf" [CallArg.thread, CallArg.param 0, CallArg.param 1, CallArg.param 2, CallArg.param 3, CallArg.param 4, CallArg.param 5, CallArg.param 6, CallArg.param 7, CallArg.param 8]),
CFun.mk "jgrapht_export_file_dot" CType.cint
  [CParam.mk "g" CType.cvoidptr, CParam.mk "filename" CType.cstring, CParam.mk "vertex_attribute_store" CType.cvoidptr, CParam.mk "edge_attribute_store" CType.cvoidptr]
  (FnBody.forward "jgrapht_capi_export_file_dot" [CallArg.thread, CallArg.param 0, CallArg.param 1, CallArg.param 2, CallArg.param 3]),
CFun.mk "jgrapht_export_string_dot" CType.cint
  [CParam.mk "g" CType.cvoidptr, CParam.mk "vertex_attribute_store" CType.cvoidptr, CParam.mk "edge_attribute_store" CType.cvoidptr, CParam.mk "res" CType.cvoidptrptr]
  (FnBody.forward "jgrapht_capi_export_string_dot" [CallArg.thread, CallArg.param 0, CallArg.param 1, CallArg.param 2, CallArg.param 3]),
CFun.mk "jgrapht_export_file_graph6" CType.cint
  [CParam.mk "g" CType.cvoidptr, CParam.mk "filename" CType.cstring]
  (FnBody.forward "jgrapht_capi_export_file_graph6" [CallArg.thread, CallArg.param 0, CallArg.param 1]),
CFun.mk "jgrapht_export_string_graph6" CType.cint
  [CParam.mk "g" CType.cvoidptr, CParam.mk "res" CType.cvoidptrptr]
  (FnBody.forward "jgrapht_capi_export_string_graph6" [CallArg.thread, CallArg.param 0, CallArg.param 1]),
CFun.mk "jgrapht_export_file_sparse6" CType.cint
  [CParam.mk "g" CType.cvoidptr, CParam.mk "filename" CType.cstring]
  (FnBody.forward "jgrapht_capi_export_file_sparse6" [CallArg.thread, CallArg.param 0, CallArg.param 1]),
CFun.mk "jgrapht_export_string_sparse6" CType.cint
  [CParam.mk "g" CType.cvoidptr, CParam.mk "res" CType.cvoidptrptr]
  (FnBody.forward "jgrapht_capi_export_string_sparse6" [CallArg.thread, CallArg.param 0, CallArg.param 1]),
CFun.mk "jgrapht_export_file_graphml" CType.cint
  [CParam.mk "g" CType.cvoidptr, CParam.mk "filename" CType.cstring, CParam.mk "attributes_registry" CType.cvoidptr, CParam.mk "vertex_attribute_store" CType.cvoidptr, CParam.mk "edge_attribute_store" CType.cvoidptr, CParam.mk "export_edge_weights" CType.cint, CParam.mk "export_vertex_labels" CType.cint, CParam.mk "export_edge_labels" CType.cint]
  (FnBody.forward "jgrapht_capi_export_file_graphml" [CallArg.thread, CallArg.param 0, CallArg.param 1, CallArg.param 2, CallArg.param 3, CallArg.param 4, CallArg.param 5, CallArg.param 6, CallArg.param 7]),
CFun.mk "jgrapht_export_string_graphml" CType.cint
  [CParam.mk "g" CType.cvoidptr, CParam.mk "attributes_registry" CType.cvoidptr, CParam.mk "vertex_attribute_store" CType.cvoidptr, CParam.mk "edge_attribute_store" CType.cvoidptr, CParam.mk "export_edge_weights" CType.cint, CParam.mk "export_vertex_labels" CType.cint, CParam.mk "export_edge_labels" CType.cint, CParam.mk "res" CType.cvoidptrptr]
  (FnBody.forward "jgrapht_capi_export_string_graphml" [CallArg.thread, CallArg.param 0, CallArg.param 1, CallArg.param 2, CallArg.param 3, CallArg.param 4, CallArg.param 5, CallArg.param 6, CallArg.param 7]),
CFun.mk "jgrapht_maxflow_exec_push_relabel" CType.cint
  [CParam.mk "g" CType.cvoidptr, CParam.mk "source" CType.cint, CParam.mk "sink" CType.cint, CParam.mk "valueRes" CType.cdoubleptr, CParam.mk "flowMapRes" CType.cvoidptrptr, CParam.mk "cutSourcePartitionRes" CType.cvoidptrptr]
  (FnBody.forward "jgrapht_capi_maxflow_exec_push_relabel" [CallArg.thread, CallArg.param 0, CallArg.param 1, CallArg.param 2, CallArg.param 3, CallArg.param 4, CallArg.param 5]),
CFun.mk "jgrapht_maxflow_exec_dinic" CType.cint
  [CParam.mk "g" CType.cvoidptr, CParam.mk "source" CType.cint, CParam.mk "sink" CType.cint, CParam.mk "valueRes" CType.cdoubleptr, CParam.mk "flowMapRes" CType.cvoidptrptr, CParam.mk "cutSourcePartitionRes" CType.cvoidptrptr]
  (FnBody.forward "jgrapht_capi_maxflow_exec_dinic" [CallArg.thread, CallArg.param 0, CallArg.param 1, CallArg.param 2, CallArg.param 3, CallArg.param 4, CallArg.param 5]),
CFun.mk "jgrapht_maxflow_exec_edmonds_karp" CType.cint
  [CParam.mk "g" CType.cvoidptr, CParam.mk "source" CType.cint, CParam.mk "sink" CType.cint, CParam.mk "valueRes" CType.cdoubleptr, CParam.mk "flowMapRes" CType.cvoidptrptr, CParam.mk "cutSourcePartitionRes" CType.cvoidptrptr]
  (FnBody.forward "jgrapht_capi_maxflow_exec_edmonds_karp" [CallArg.thread, CallArg.param 0, CallArg.param 1, CallArg.param 2, CallArg.param 3, CallArg.param 4, CallArg.param 5]),
CFun.mk "jgrapht_mincostflow_exec_capacity_scaling" CType.cint
  [CParam.mk "g" CType.cvoidptr, CParam.mk "node_supply_fptr" CType.cvoidptr, CParam.mk "arc_capacity_lower_bound_fptr" CType.cvoidptr, CParam.mk "arc_capacity_upper_bound_fptr" CType.cvoidptr, CParam.mk "scaling_factor" CType.cint, CParam.mk "cost_res" CType.cdoubleptr, CParam.mk "flow_res" CType.cvoidptrptr, CParam.mk "dual_res" CType.cvoidptrptr]
  (FnBody.forward "jgrapht_capi_mincostflow_exec_capacity_scaling" [CallArg.thread, CallArg.param 0, CallArg.param 1, CallArg.param 2, CallArg.param 3, CallArg.param 4, CallArg.param 5, CallArg.param 6, CallArg.param 7]),
CFun.mk "jgrapht_generate_barabasi_albert" CType.cint
  [CParam.mk "g" CType.cvoidptr, CParam.mk "m0" CType.cint, CParam.mk "m" CType.cint, CParam.mk "n" CType.cint, CParam.mk "seed" CType.clonglong]
  (FnBody.forward "jgrapht_capi_generate_barabasi_albert" [CallArg.thread, CallArg.param 0, CallArg.param 1, CallArg.param 2, CallArg.param 3, CallArg.param 4]),
CFun.mk "jgrapht_generate_barabasi_albert_forest" CType.cint
  [CParam.mk "g" CType.cvoidptr, CParam.mk "t" CType.cint, CParam.mk "n" CType.cint, CParam.mk "seed" CType.clonglong]
  (FnBody.forward "jgrapht_capi_generate_barabasi_albert_forest" [CallArg.thread, CallArg.param 0, CallArg.param 1, CallArg.param 2, CallArg.param 3]),
CFun.mk "jgrapht_generate_complete" CType.cint
  [CParam.mk "g" CType.cvoidptr, CParam.mk "nodes" CType.cint]
  (FnBody.forward "jgrapht_capi_generate_complete" [CallArg.thread, CallArg.param 0, CallArg.param 1]),
CFun.mk "jgrapht_generate_bipartite_complete" CType.cint
  [CParam.mk "g" CType.cvoidptr, CParam.mk "a" CType.cint, CParam.mk "b" CType.cint]
  (FnBody.forward "jgrapht_capi_generate_bipartite_complete" [CallArg.thread, CallArg.param 0, CallArg.param 1, CallArg.param 2]),
CFun.mk "jgrapht_generate_empty" CType.cint
  [CParam.mk "g" CType.cvoidptr, CParam.mk "nodes" CType.cint]
  (FnBody.forward "jgrapht_capi_generate_empty" [CallArg.thread, CallArg.param 0, CallArg.param 1]),
CFun.mk "jgrapht_generate_gnm_random" CType.cint
  [CParam.mk "g" CType.cvoidptr, CParam.mk "n" CType.cint, CParam.mk "m" CType.cint, CParam.mk "loops" CType.cint, CParam.mk "multiple_edges" CType.cint, CParam.mk "seed" CType.clonglong]
  (FnBody.forward "jgrapht_capi_generate_gnm_random" [CallArg.thread, CallArg.param 0, CallArg.param 1, CallArg.param 2, CallArg.param 3, CallArg.param 4, CallArg.param 5]),
CFun.mk "jgrapht_generate_gnp_random" CType.cint
  [CParam.mk "g" CType.cvoidptr, CParam.mk "n" CType.cint, CParam.mk "p" CType.cdouble, CParam.mk "create_loops" CType.cint, CParam.mk "seed" CType.clonglong]
  (FnBody.forward "jgrapht_capi_generate_gnp_random" [CallArg.thread, CallArg.param 0, CallArg.param 1, CallArg.param 2, CallArg.param 3, CallArg.param 4]),
CFun.mk "jgrapht_generate_ring" CType.cint
  [CParam.mk "g" CType.cvoidptr, CParam.mk "n" CType.cint]
  (FnBody.forward "jgrapht_capi_generate_ring" [CallArg.thread, CallArg.param 0, CallArg.param 1]),
CFun.mk "jgrapht_generate_scalefree" CType.cint
  [CParam.mk "g" CType.cvoidptr, CParam.mk "n" CType.cint, CParam.mk "seed" CType.clonglong]
  (FnBody.forward "jgrapht_capi_generate_scalefree" [CallArg.thread, CallArg.param 0, CallArg.param 1, CallArg.param 2]),
CFun.mk "jgrapht_generate_watts_strogatz" CType.cint
  [CParam.mk "g" CType.cvoidptr, CParam.mk "n" CType.cint, CParam.mk "k" CType.cint, CParam.mk "p" CType.cdouble, CParam.mk "add_instead_of_rewire" CType.cint, CParam.mk "seed" CType.clonglong]
  (FnBody.forward "jgrapht_capi_generate_watts_strogatz" [CallArg.thread, CallArg.param 0, CallArg.param 1, CallArg.param 2, CallArg.param 3, CallArg.param 4, CallArg.param 5]),
CFun.mk "jgrapht_generate_kleinberg_smallworld" CType.cint
  [CParam.mk "g" CType.cvoidptr, CParam.mk "n" CType.cint, CParam.mk "p" CType.cint, CParam.mk "q" CType.cint, CParam.mk "r" CType.cint, CParam.mk "seed" CType.clonglong]
  (FnBody.forward "jgrapht_capi_generate_kleinberg_smallworld" [CallArg.thread, CallArg.param 0, CallArg.param 1, CallArg.param 2, CallArg.param 3, CallArg.param 4, CallArg.param 5]),
CFun.mk "jgrapht_graph_create" CType.cint
  [CParam.mk "directed" CType.cint, CParam.mk "allowing_self_loops" CType.cint, CParam.mk "allowing_multiple_edges" CType.cint, CParam.mk "weighted" CType.cint, CParam.mk "res" CType.cvoidptrptr]
  (FnBody.forward "jgrapht_capi_graph_create" [CallArg.thread, CallArg.param 0, CallArg.param 1, CallArg.param 2, CallArg.param 3, CallArg.param 4]),
CFun.mk "jgrapht_graph_sparse_create" CType.cint
  [CParam.mk "directed" CType.cint, CParam.mk "weighted" CType.cint, CParam.mk "num_vertices" CType.cint, CParam.mk "edges" CType.cvoidptr, CParam.mk "res" CType.cvoidptrptr]
  (FnBody.forward "jgrapht_capi_graph_sparse_create" [CallArg.thread, CallArg.param 0, CallArg.param 1, CallArg.param 2, CallArg.param 3, CallArg.param 4]),
CFun.mk "jgrapht_graph_vertices_count" CType.cint
  [CParam.mk "g" CType.cvoidptr, CParam.mk "res" CType.cintptr]
  (FnBody.forward "jgrapht_capi_graph_vertices_count" [CallArg.thread, CallArg.param 0, CallArg.param 1]),
CFun.mk "jgrapht_graph_edges_count" CType.cint
  [CParam.mk "g" CType.cvoidptr, CParam.mk "res" CType.cintptr]
  (FnBody.forward "jgrapht_capi_graph_edges_count" [CallArg.thread, CallArg.param 0, CallArg.param 1]),
CFun.mk "jgrapht_graph_add_vertex" CType.cint
  [CParam.mk "g" CType.cvoidptr, CParam.mk "res" CType.cintptr]
  (FnBody.forward "jgrapht_capi_graph_add_vertex" [CallArg.thread, CallArg.param 0, CallArg.param 1]),
CFun.mk "jgrapht_graph_add_given_vertex" CType.cint
  [CParam.mk "g" CType.cvoidptr, CParam.mk "vertex" CType.cint, CParam.mk "res" CType.cintptr]
  (FnBody.forward "jgrapht_capi_graph_add_given_vertex" [CallArg.thread, CallArg.param 0, CallArg.param 1, CallArg.param 2]),
CFun.mk "jgrapht_graph_remove_vertex" CType.cint
  [CParam.mk "g" CType.cvoidptr, CParam.mk "v" CType.cint, CParam.mk "res" CType.cintptr]
  (FnBody.forward "jgrapht_capi_graph_remove_vertex" [CallArg.thread, CallArg.param 0, CallArg.param 1, CallArg.param 2]),
CFun.mk "jgrapht_graph_contains_vertex" CType.cint
  [CParam.mk "g" CType.cvoidptr, CParam.mk "v" CType.cint, CParam.mk "res" CType.cintptr]
  (FnBody.forward "jgrapht_capi_graph_contains_vertex" [CallArg.thread, CallArg.param 0, CallArg.param 1, CallArg.param 2]),
CFun.mk "jgrapht_graph_add_edge" CType.cint
  [CParam.mk "g" CType.cvoidptr, CParam.mk "u" CType.cint, CParam.mk "v" CType.cint, CParam.mk "res" CType.cintptr]
  (FnBody.forward "jgrapht_capi_graph_add_edge" [CallArg.thread, CallArg.param 0, CallArg.param 1, CallArg.param 2, CallArg.param 3]),
CFun.mk "jgrapht_graph_add_given_edge" CType.cint
  [CParam.mk "g" CType.cvoidptr, CParam.mk "u" CType.cint, CParam.mk "v" CType.cint, CParam.mk "edge" CType.cint, CParam.mk "res" CType.cintptr]
  (FnBody.forward "jgrapht_capi_graph_add_given_edge" [CallArg.thread, CallArg.param 0, CallArg.param 1, CallArg.param 2, CallArg.param 3, CallArg.param 4]),
CFun.mk "jgrapht_graph_remove_edge" CType.cint
  [CParam.mk "g" CType.cvoidptr, CParam.mk "e" CType.cint, CParam.mk "res" CType.cintptr]
  (FnBody.forward "jgrapht_capi_graph_remove_edge" [CallArg.thread, CallArg.param 0, CallArg.param 1, CallArg.param 2]),
CFun.mk "jgrapht_graph_contains_edge" CType.cint
  [CParam.mk "g" CType.cvoidptr, CParam.mk "e" CType.cint, CParam.mk "res" CType.cintptr]
  (FnBody.forward "jgrapht_capi_graph_contains_edge" [CallArg.thread, CallArg.param 0, CallArg.param 1, CallArg.param 2]),
CFun.mk "jgrapht_graph_contains_edge_between" CType.cint
  [CParam.mk "g" CType.cvoidptr, CParam.mk "u" CType.cint, CParam.mk "v" CType.cint, CParam.mk "res" CType.cintptr]
  (FnBody.forward "jgrapht_capi_graph_contains_edge_between" [CallArg.thread, CallArg.param 0, CallArg.param 1, CallArg.param 2, CallArg.param 3]),
CFun.mk "jgrapht_graph_degree_of" CType.cint
  [CParam.mk "g" CType.cvoidptr, CParam.mk "v" CType.cint, CParam.mk "res" CType.cintptr]
  (FnBody.forward "jgrapht_capi_graph_degree_of" [CallArg.thread, CallArg.param 0, CallArg.param 1, CallArg.param 2]),
CFun.mk "jgrapht_graph_indegree_of" CType.cint
  [CParam.mk "g" CType.cvoidptr, CParam.mk "v" CType.cint, CParam.mk "res" CType.cintptr]
  (FnBody.forward "jgrapht_capi_graph_indegree_of" [CallArg.thread, CallArg.param 0, CallArg.param 1, CallArg.param 2]),
CFun.mk "jgrapht_graph_outdegree_of" CType.cint
  [CParam.mk "g" CType.cvoidptr, CParam.mk "v" CType.cint, CParam.mk "res" CType.cintptr]
  (FnBody.forward "jgrapht_capi_graph_outdegree_of" [CallArg.thread, CallArg.param 0, CallArg.param 1, CallArg.param 2]),
CFun.mk "jgrapht_graph_edge_source" CType.cint
  [CParam.mk "g" CType.cvoidptr, CParam.mk "v" CType.cint, CParam.mk "res" CType.cintptr]
  (FnBody.forward "jgrapht_capi_graph_edge_source" [CallArg.thread, CallArg.param 0, CallArg.param 1, CallArg.param 2]),
CFun.mk "jgrapht_graph_edge_target" CType.cint
  [CParam.mk "g" CType.cvoidptr, CParam.mk "v" CType.cint, CParam.mk "res" CType.cintptr]
  (FnBody.forward "jgrapht_capi_graph_edge_target" [CallArg.thread, CallArg.param 0, CallArg.param 1, CallArg.param 2]),
CFun.mk "jgrapht_graph_is_weighted" CType.cint
  [CParam.mk "g" CType.cvoidptr, CParam.mk "res" CType.cintptr]
  (FnBody.forward "jgrapht_capi_graph_is_weighted" [CallArg.thread, CallArg.param 0, CallArg.param 1]),
CFun.mk "jgrapht_graph_is_directed" CType.cint
  [CParam.mk "g" CType.cvoidptr, CParam.mk "res" CType.cintptr]
  (FnBody.forward "jgrapht_capi_graph_is_directed" [CallArg.thread, CallArg.param 0, CallArg.param 1]),
CFun.mk "jgrapht_graph_is_undirected" CType.cint
  [CParam.mk "g" CType.cvoidptr, CParam.mk "res" CType.cintptr]
  (FnBody.forward "jgrapht_capi_graph_is_undirected" [CallArg.thread, CallArg.param 0, CallArg.param 1]),
CFun.mk "jgrapht_graph_is_allowing_selfloops" CType.cint
  [CParam.mk "g" CType.cvoidptr, CParam.mk "res" CType.cintptr]
  (FnBody.forward "jgrapht_capi_graph_is_allowing_selfloops" [CallArg.thread, CallArg.param 0, CallArg.param 1]),
CFun.mk "jgrapht_graph_is_allowing_multipleedges" CType.cint
  [CParam.mk "g" CType.cvoidptr, CParam.mk "res" CType.cintptr]
  (FnBody.forward "jgrapht_capi_graph_is_allowing_multipleedges" [CallArg.thread, CallArg.param 0, CallArg.param 1]),
CFun.mk "jgrapht_graph_get_edge_weight" CType.cint
  [CParam.mk "g" CType.cvoidptr, CParam.mk "e" CType.cint, CParam.mk "res" CType.cdoubleptr]
  (FnBody.forward "jgrapht_capi_graph_get_edge_weight" [CallArg.thread, CallArg.param 0, CallArg.param 1, CallArg.param 2]),
CFun.mk "jgrapht_graph_set_edge_weight" CType.cint
  [CParam.mk "g" CType.cvoidptr, CParam.mk "e" CType.cint, CParam.mk "weight" CType.cdouble]
  (FnBody.forward "jgrapht_capi_graph_set_edge_weight" [CallArg.thread, CallArg.param 0, CallArg.param 1, CallArg.param 2]),
CFun.mk "jgrapht_graph_create_all_vit" CType.cint
  [CParam.mk "g" CType.cvoidptr, CParam.mk "res" CType.cvoidptrptr]
  (FnBody.forward "jgrapht_capi_graph_create_all_vit" [CallArg.thread, CallArg.param 0, CallArg.param 1]),
CFun.mk "jgrapht_graph_create_all_eit" CType.cint
  [CParam.mk "g" CType.cvoidptr, CParam.mk "res" CType.cvoidptrptr]
  (FnBody.forward "jgrapht_capi_graph_create_all_eit" [CallArg.thread, CallArg.param 0, CallArg.param 1]),
CFun.mk "jgrapht_graph_create_between_eit" CType.cint
  [CParam.mk "g" CType.cvoidptr, CParam.mk "u" CType.cint, CParam.mk "v" CType.cint, CParam.mk "res" CType.cvoidptrptr]
  (FnBody.forward "jgrapht_capi_graph_create_between_eit" [CallArg.thread, CallArg.param 0, CallArg.param 1, CallArg.param 2, CallArg.param 3]),
CFun.mk "jgrapht_graph_vertex_create_eit" CType.cint
  [CParam.mk "g" CType.cvoidptr, CParam.mk "v" CType.cint, CParam.mk "res" CType.cvoidptrptr]
  (FnBody.forward "jgrapht_capi_graph_vertex_create_eit" [CallArg.thread, CallArg.param 0, CallArg.param 1, CallArg.param 2]),
CFun.mk "jgrapht_graph_vertex_create_out_eit" CType.cint
  [CParam.mk "g" CType.cvoidptr, CParam.mk "v" CType.cint, CParam.mk "res" CType.cvoidptrptr]
  (FnBody.forward "jgrapht_capi_graph_vertex_create_out_eit" [CallArg.thread, CallArg.param 0, CallArg.param 1, CallArg.param 2]),
CFun.mk "jgrapht_graph_vertex_create_in_eit" CType.cint
  [CParam.mk "g" CType.cvoidptr, CParam.mk "v" CType.cint, CParam.mk "res" CType.cvoidptrptr]
  (FnBody.forward "jgrapht_capi_graph_vertex_create_in_eit" [CallArg.thread, CallArg.param 0, CallArg.param 1, CallArg.param 2]),
CFun.mk "jgrapht_graph_as_undirected" CType.cint
  [CParam.mk "g" CType.cvoidptr, CParam.mk "res" CType.cvoidptrptr]
  (FnBody.forward "jgrapht_capi_graph_as_undirected" [CallArg.thread, CallArg.param 0, CallArg.param 1]),
CFun.mk "jgrapht_graph_as_unmodifiable" CType.cint
  [CParam.mk "g" CType.cvoidptr, CParam.mk "res" CType.cvoidptrptr]
  (FnBody.forward "jgrapht_capi_graph_as_unmodifiable" [CallArg.thread, CallArg.param 0, CallArg.param 1]),
CFun.mk "jgrapht_graph_as_unweighted" CType.cint
  [CParam.mk "g" CType.cvoidptr, CParam.mk "res" CType.cvoidptrptr]
  (FnBody.forward "jgrapht_capi_graph_as_unweighted" [CallArg.thread, CallArg.param 0, CallArg.param 1]),
CFun.mk "jgrapht_graph_as_edgereversed" CType.cint
  [CParam.mk "g" CType.cvoidptr, CParam.mk "res" CType.cvoidptrptr]
  (FnBody.forward "jgrapht_capi_graph_as_edgereversed" [CallArg.thread, CallArg.param 0, CallArg.param 1]),
CFun.mk "jgrapht_graph_metrics_diameter" CType.cint
  [CParam.mk "g" CType.cvoidptr, CParam.mk "diameter" CType.cdoubleptr]
  (FnBody.forward "jgrapht_capi_graph_metrics_diameter" [CallArg.thread, CallArg.param 0, CallArg.param 1]),
CFun.mk "jgrapht_graph_metrics_radius" CType.cint
  [CParam.mk "g" CType.cvoidptr, CParam.mk "radius" CType.cdoubleptr]
  (FnBody.forward "jgrapht_capi_graph_metrics_radius" [CallArg.thread, CallArg.param 0, CallArg.param 1]),
CFun.mk "jgrapht_graph_metrics_girth" CType.cint
  [CParam.mk "g" CType.cvoidptr, CParam.mk "girth" CType.cintptr]
  (FnBody.forward "jgrapht_capi_graph_metrics_girth" [CallArg.thread, CallArg.param 0, CallArg.param 1]),
CFun.mk "jgrapht_graph_metrics_triangles" CType.cint
  [CParam.mk "g" CType.cvoidptr, CParam.mk "triangles" CType.clonglongptr]
  (FnBody.forward "jgrapht_capi_graph_metrics_triangles" [CallArg.thread, CallArg.param 0, CallArg.param 1]),
CFun.mk "jgrapht_graph_metrics_measure_graph" CType.cint
  [CParam.mk "g" CType.cvoidptr, CParam.mk "diameter_res" CType.cdoubleptr, CParam.mk "radius_res" CType.cdoubleptr, CParam.mk "center_res" CType.cvoidptrptr, CParam.mk "periphery_res" CType.cvoidptrptr, CParam.mk "pseudo_periphery_res" CType.cvoidptrptr, CParam.mk "vertex_eccentricity_map_res" CType.cvoidptrptr]
  (FnBody.forward "jgrapht_capi_graph_metrics_measure_graph" [CallArg.thread, CallArg.param 0, CallArg.param 1, CallArg.param 2, CallArg.param 3, CallArg.param 4, CallArg.param 5, CallArg.param 6]),
CFun.mk "jgrapht_graphpath_get_fields" CType.cint
  [CParam.mk "graph_path" CType.cvoidptr, CParam.mk "weight" CType.cdoubleptr, CParam.mk "start_vertex" CType.cintptr, CParam.mk "end_vertex" CType.cintptr, CParam.mk "eit" CType.cvoidptrptr]
  (FnBody.forward "jgrapht_capi_graphpath_get_fields" [CallArg.thread, CallArg.param 0, CallArg.param 1, CallArg.param 2, CallArg.param 3, CallArg.param 4]),
CFun.mk "jgrapht_graph_test_is_empty" CType.cint
  [CParam.mk "g" CType.cvoidptr, CParam.mk "res" CType.cintptr]
  (FnBody.forward "jgrapht_capi_graph_test_is_empty" [CallArg.thread, CallArg.param 0, CallArg.param 1]),
CFun.mk "jgrapht_graph_test_is_simple" CType.cint
  [CParam.mk "g" CType.cvoidptr, CParam.mk "res" CType.cintptr]
  (FnBody.forward "jgrapht_capi_graph_test_is_simple" [CallArg.thread, CallArg.param 0, CallArg.param 1]),
CFun.mk "jgrapht_graph_test_has_selfloops" CType.cint
  [CParam.mk "g" CType.cvoidptr, CParam.mk "res" CType.cintptr]
  (FnBody.forward "jgrapht_capi_graph_test_has_selfloops" [CallArg.thread, CallArg.param 0, CallArg.param 1]),
CFun.mk "jgrapht_graph_test_has_multipleedges" CType.cint
  [CParam.mk "g" CType.cvoidptr, CParam.mk "res" CType.cintptr]
  (FnBody.forward "jgrapht_capi_graph_test_has_multipleedges" [CallArg.thread, CallArg.param 0, CallArg.param 1]),
CFun.mk "jgrapht_graph_test_is_complete" CType.cint
  [CParam.mk "g" CType.cvoidptr, CParam.mk "res" CType.cintptr]
  (FnBody.forward "jgrapht_capi_graph_test_is_complete" [CallArg.thread, CallArg.param 0, CallArg.param 1]),
CFun.mk "jgrapht_graph_test_is_weakly_connected" CType.cint
  [CParam.mk "g" CType.cvoidptr, CParam.mk "res" CType.cintptr]
  (FnBody.forward "jgrapht_capi_graph_test_is_weakly_connected" [CallArg.thread, CallArg.param 0, CallArg.param 1]),
CFun.mk "jgrapht_graph_test_is_strongly_connected" CType.cint
  [CParam.mk "g" CType.cvoidptr, CParam.mk "res" CType.cintptr]
  (FnBody.forward "jgrapht_capi_graph_test_is_strongly_connected" [CallArg.thread, CallArg.param 0, CallArg.param 1]),
CFun.mk "jgrapht_graph_test_is_tree" CType.cint
  [CParam.mk "g" CType.cvoidptr, CParam.mk "res" CType.cintptr]
  (FnBody.forward "jgrapht_capi_graph_test_is_tree" [CallArg.thread, CallArg.param 0, CallArg.param 1]),
CFun.mk "jgrapht_graph_test_is_forest" CType.cint
  [CParam.mk "g" CType.cvoidptr, CParam.mk "res" CType.cintptr]
  (FnBody.forward "jgrapht_capi_graph_test_is_forest" [CallArg.thread, CallArg.param 0, CallArg.param 1]),
CFun.mk "jgrapht_graph_test_is_overfull" CType.cint
  [CParam.mk "g" CType.cvoidptr, CParam.mk "res" CType.cintptr]
  (FnBody.forward "jgrapht_capi_graph_test_is_overfull" [CallArg.thread, CallArg.param 0, CallArg.param 1]),
CFun.mk "jgrapht_graph_test_is_split" CType.cint
  [CParam.mk "g" CType.cvoidptr, CParam.mk "res" CType.cintptr]
  (FnBody.forward "jgrapht_capi_graph_test_is_split" [CallArg.thread, CallArg.param 0, CallArg.param 1]),
CFun.mk "jgrapht_graph_test_is_bipartite" CType.cint
  [CParam.mk "g" CType.cvoidptr, CParam.mk "res" CType.cintptr]
  (FnBody.forward "jgrapht_capi_graph_test_is_bipartite" [CallArg.thread, CallArg.param 0, CallArg.param 1]),
CFun.mk "jgrapht_graph_test_is_cubic" CType.cint
  [CParam.mk "g" CType.cvoidptr, CParam.mk "res" CType.cintptr]
  (FnBody.forward "jgrapht_capi_graph_test_is_cubic" [CallArg.thread, CallArg.param 0, CallArg.param 1]),
CFun.mk "jgrapht_graph_test_is_eulerian" CType.cint
  [CParam.mk "g" CType.cvoidptr, CParam.mk "res" CType.cintptr]
  (FnBody.forward "jgrapht_capi_graph_test_is_eulerian" [CallArg.thread, CallArg.param 0, CallArg.param 1]),
CFun.mk "jgrapht_graph_test_is_chordal" CType.cint
  [CParam.mk "g" CType.cvoidptr, CParam.mk "res" CType.cintptr]
  (FnBody.forward "jgrapht_capi_graph_test_is_chordal" [CallArg.thread, CallArg.param 0, CallArg.param 1]),
CFun.mk "jgrapht_graph_test_is_weakly_chordal" CType.cint
  [CParam.mk "g" CType.cvoidptr, CParam.mk "res" CType.cintptr]
  (FnBody.forward "jgrapht_capi_graph_test_is_weakly_chordal" [CallArg.thread, CallArg.param 0, CallArg.param 1]),
CFun.mk "jgrapht_graph_test_has_ore" CType.cint
  [CParam.mk "g" CType.cvoidptr, CParam.mk "res" CType.cintptr]
  (FnBody.forward "jgrapht_capi_graph_test_has_ore" [CallArg.thread, CallArg.param 0, CallArg.param 1]),
CFun.mk "jgrapht_graph_test_is_trianglefree" CType.cint
  [CParam.mk "g" CType.cvoidptr, CParam.mk "res" CType.cintptr]
  (FnBody.forward "jgrapht_capi_graph_test_is_trianglefree" [CallArg.thread, CallArg.param 0, CallArg.param 1]),
CFun.mk "jgrapht_graph_test_is_perfect" CType.cint
  [CParam.mk "g" CType.cvoidptr, CParam.mk "res" CType.cintptr]
  (FnBody.forward "jgrapht_capi_graph_test_is_perfect" [CallArg.thread, CallArg.param 0, CallArg.param 1]),
CFun.mk "jgrapht_graph_test_is_planar" CType.cint
  [CParam.mk "g" CType.cvoidptr, CParam.mk "res" CType.cintptr]
  (FnBody.forward "jgrapht_capi_graph_test_is_planar" [CallArg.thread, CallArg.param 0, CallArg.param 1]),
CFun.mk "jgrapht_graph_test_is_kuratowski_subdivision" CType.cint
  [CParam.mk "g" CType.cvoidptr, CParam.mk "res" CType.cintptr]
  (FnBody.forward "jgrapht_capi_graph_test_is_kuratowski_subdivision" [CallArg.thread, CallArg.param 0, CallArg.param 1]),
CFun.mk "jgrapht_graph_test_is_k33_subdivision" CType.cint
  [CParam.mk "g" CType.cvoidptr, CParam.mk "res" CType.cintptr]
  (FnBody.forward "jgrapht_capi_graph_test_is_k33_subdivision" [CallArg.thread, CallArg.param 0, CallArg.param 1]),
CFun.mk "jgrapht_graph_test_is_k5_subdivision" CType.cint
  [CParam.mk "g" CType.cvoidptr, CParam.mk "res" CType.cintptr]
  (FnBody.forward "jgrapht_capi_graph_test_is_k5_subdivision" [CallArg.thread, CallArg.param 0, CallArg.param 1]),
CFun.mk "jgrapht_handles_destroy" CType.cint
  [CParam.mk "handle" CType.cvoidptr]
  (FnBody.forward "jgrapht_capi_handles_destroy" [CallArg.thread, CallArg.param 0]),
CFun.mk "jgrapht_handles_get_ccharpointer" CType.cint
  [CParam.mk "handle" CType.cvoidptr, CParam.mk "res" CType.ccharptrptr]
  (FnBody.forward "jgrapht_capi_handles_get_ccharpointer" [CallArg.thread, CallArg.param 0, CallArg.param 1]),
CFun.mk "jgrapht_import_file_dimacs" CType.cint
  [CParam.mk "g" CType.cvoidptr, CParam.mk "filename" CType.cstring, CParam.mk "preserve_ids_from_input" CType.cint]
  (FnBody.forward "jgrapht_capi_import_file_dimacs" [CallArg.thread, CallArg.param 0, CallArg.param 1, CallArg.param 2]),
CFun.mk "jgrapht_import_string_dimacs" CType.cint
  [CParam.mk "g" CType.cvoidptr, CParam.mk "input" CType.cstring, CParam.mk "preserve_ids_from_input" CType.cint]
  (FnBody.forward "jgrapht_capi_import_string_dimacs" [CallArg.thread, CallArg.param 0, CallArg.param 1, CallArg.param 2]),
CFun.mk "jgrapht_import_file_gml" CType.cint
  [CParam.mk "g" CType.cvoidptr, CParam.mk "filename" CType.cstring, CParam.mk "preserve_ids_from_input" CType.cint, CParam.mk "vertex_attribute_fptr" CType.cvoidptr, CParam.mk "edge_attribute_fptr" CType.cvoidptr]
  (FnBody.forward "jgrapht_capi_import_file_gml" [CallArg.thread, CallArg.param 0, CallArg.param 1, CallArg.param 2, CallArg.param 3, CallArg.param 4]),
CFun.mk "jgrapht_import_string_gml" CType.cint
  [CParam.mk "g" CType.cvoidptr, CParam.mk "input" CType.cstring, CParam.mk "preserve_ids_from_input" CType.cint, CParam.mk "vertex_attribute_fptr" CType.cvoidptr, CParam.mk "edge_attribute_fptr" CType.cvoidptr]
  (FnBody.forward "jgrapht_capi_import_string_gml" [CallArg.thread, CallArg.param 0, CallArg.param 1, CallArg.param 2, CallArg.param 3, CallArg.param 4]),
CFun.mk "jgrapht_import_file_json" CType.cint
  [CParam.mk "g" CType.cvoidptr, CParam.mk "filename" CType.cstring, CParam.mk "import_vertex_id_fptr" CType.cvoidptr, CParam.mk "vertex_attribute_fptr" CType.cvoidptr, CParam.mk "edge_attribute_fptr" CType.cvoidptr]
  (FnBody.forward "jgrapht_capi_import_file_json" [CallArg.thread, CallArg.param 0, CallArg.param 1, CallArg.param 2, CallArg.param 3, CallArg.param 4]),
CFun.mk "jgrapht_import_string_json" CType.cint
  [CParam.mk "g" CType.cvoidptr, CParam.mk "input" CType.cstring, CParam.mk "import_vertex_id_fptr" CType.cvoidptr, CParam.mk "vertex_attribute_fptr" CType.cvoidptr, CParam.mk "edge_attribute_fptr" CType.cvoidptr]
  (FnBody.forward "jgrapht_capi_import_string_json" [CallArg.thread, CallArg.param 0, CallArg.param 1, CallArg.param 2, CallArg.param 3, CallArg.param 4]),
CFun.mk "jgrapht_import_file_csv" CType.cint
  [CParam.mk "g" CType.cvoidptr, CParam.mk "filename" CType.cstring, CParam.mk "import_vertex_id_fptr" CType.cvoidptr, CParam.mk "format" CType.ccsvfmt, CParam.mk "import_edge_weights" CType.cint, CParam.mk "matrix_format_nodeid" CType.cint, CParam.mk "matrix_format_zero_when_no_edge" CType.cint]
  (FnBody.forward "jgrapht_capi_import_file_csv" [CallArg.thread, CallArg.param 0, CallArg.param 1, CallArg.param 2, CallArg.param 3, CallArg.param 4, CallArg.param 5, CallArg.param 6]),
CFun.mk "jgrapht_import_string_csv" CType.cint
  [CParam.mk "g" CType.cvoidptr, CParam.mk "input" CType.cstring, CParam.mk "import_vertex_id_fptr" CType.cvoidptr, CParam.mk "format" CType.ccsvfmt, CParam.mk "import_edge_weights" CType.cint, CParam.mk "matrix_format_nodeid" CType.cint, CParam.mk "matrix_format_zero_when_no_edge" CType.cint]
  (FnBody.forward "jgrapht_capi_import_string_csv" [CallArg.thread, CallArg.param 0, CallArg.param 1, CallArg.param 2, CallArg.param 3, CallArg.param 4, CallArg.param 5, CallArg.param 6]),
CFun.mk "jgrapht_import_file_gexf" CType.cint
  [CParam.mk "g" CType.cvoidptr, CParam.mk "filename" CType.cstring, CParam.mk "import_vertex_id_fptr" CType.cvoidptr, CParam.mk "validate_schema" CType.cint, CParam.mk "vertex_attribute_fptr" CType.cvoidptr, CParam.mk "edge_attribute_fptr" CType.cvoidptr]
  (FnBody.forward "jgrapht_capi_import_file_gexf" [CallArg.thread, CallArg.param 0, CallArg.param 1, CallArg.param 2, CallArg.param 3, CallArg.param 4, CallArg.param 5]),
CFun.mk "jgrapht_import_string_gexf" CType.cint
  [CParam.mk "g" CType.cvoidptr, CParam.mk "input" CType.cstring, CParam.mk "import_vertex_id_fptr" CType.cvoidptr, CParam.mk "validate_schema" CType.cint, CParam.mk "vertex_attribute_fptr" CType.cvoidptr, CParam.mk "edge_attribute_fptr" CType.cvoidptr]
  (FnBody.forward "jgrapht_capi_import_string_gexf" [CallArg.thread, CallArg.param 0, CallArg.param 1, CallArg.param 2, CallArg.param 3, CallArg.param 4, CallArg.param 5]),
CFun.mk "jgrapht_import_file_graphml_simple" CType.cint
  [CParam.mk "g" CType.cvoidptr, CParam.mk "filename" CType.cstring, CParam.mk "import_vertex_id_fptr" CType.cvoidptr, CParam.mk "validate_schema" CType.cint, CParam.mk "vertex_attribute_fptr" CType.cvoidptr, CParam.mk "edge_attribute_fptr" CType.cvoidptr]
  (FnBody.forward "jgrapht_capi_import_file_graphml_simple" [CallArg.thread, CallArg.param 0, CallArg.param 1, CallArg.param 2, CallArg.param 3, CallArg.param 4, CallArg.param 5]),
CFun.mk "jgrapht_import_string_graphml_simple" CType.cint
  [CParam.mk "g" CType.cvoidptr, CParam.mk "input" CType.cstring, CParam.mk "import_vertex_id_fptr" CType.cvoidptr, CParam.mk "validate_schema" CType.cint, CParam.mk "vertex_attribute_fptr" CType.cvoidptr, CParam.mk "edge_attribute_fptr" CType.cvoidptr]
  (FnBody.forward "jgrapht_capi_import_string_graphml_simple" [CallArg.thread, CallArg.param 0, CallArg.param 1, CallArg.param 2, CallArg.param 3, CallArg.param 4, CallArg.param 5]),
CFun.mk "jgrapht_import_file_graphml" CType.cint
  [CParam.mk "g" CType.cvoidptr, CParam.mk "filename" CType.cstring, CParam.mk "import_vertex_id_fptr" CType.cvoidptr, CParam.mk "validate_schema" CType.cint, CParam.mk "vertex_attribute_fptr" CType.cvoidptr, CParam.mk "edge_attribute_fptr" CType.cvoidptr]
  (FnBody.forward "jgrapht_capi_import_file_graphml" [CallArg.thread, CallArg.param 0, CallArg.param 1, CallArg.param 2, CallArg.param 3, CallArg.param 4, CallArg.param 5]),
CFun.mk "jgrapht_import_string_graphml" CType.cint
  [CParam.mk "g" CType.cvoidptr, CParam.mk "input" CType.cstring, CParam.mk "import_vertex_id_fptr" CType.cvoidptr, CParam.mk "validate_schema" CType.cint, CParam.mk "vertex_attribute_fptr" CType.cvoidptr, CParam.mk "edge_attribute_fptr" CType.cvoidptr]
  (FnBody.forward "jgrapht_capi_import_string_graphml" [CallArg.thread, CallArg.param 0, CallArg.param 1, CallArg.param 2, CallArg.param 3, CallArg.param 4, CallArg.param 5]),
CFun.mk "jgrapht_import_file_dot" CType.cint
  [CParam.mk "g" CType.cvoidptr, CParam.mk "filename" CType.cstring, CParam.mk "import_vertex_id_fptr" CType.cvoidptr, CParam.mk "vertex_attribute_fptr" CType.cvoidptr, CParam.mk "edge_attribute_fptr" CType.cvoidptr]
  (FnBody.forward "jgrapht_capi_import_file_dot" [CallArg.thread, CallArg.param 0, CallArg.param 1, CallArg.param 2, CallArg.param 3, CallArg.param 4]),
CFun.mk "jgrapht_import_string_dot" CType.cint
  [CParam.mk "g" CType.cvoidptr, CParam.mk "input" CType.cstring, CParam.mk "import_vertex_id_fptr" CType.cvoidptr, CParam.mk "vertex_attribute_fptr" CType.cvoidptr, CParam.mk "edge_attribute_fptr" CType.cvoidptr]
  (FnBody.forward "jgrapht_capi_import_string_dot" [CallArg.thread, CallArg.param 0, CallArg.param 1, CallArg.param 2, CallArg.param 3, CallArg.param 4]),
CFun.mk "jgrapht_import_file_graph6sparse6" CType.cint
  [CParam.mk "g" CType.cvoidptr, CParam.mk "filename" CType.cstring, CParam.mk "import_vertex_id_fptr" CType.cvoidptr, CParam.mk "vertex_attribute_fptr" CType.cvoidptr, CParam.mk "edge_attribute_fptr" CType.cvoidptr]
  (FnBody.forward "jgrapht_capi_import_file_graph6sparse6" [CallArg.thread, CallArg.param 0, CallArg.param 1, CallArg.param 2, CallArg.param 3, CallArg.param 4]),
CFun.mk "jgrapht_import_string_graph6sparse6" CType.cint
  [CParam.mk "g" CType.cvoidptr, CParam.mk "input" CType.cstring, CParam.mk "import_vertex_id_fptr" CType.cvoidptr, CParam.mk "vertex_attribute_fptr" CType.cvoidptr, CParam.mk "edge_attribute_fptr" CType.cvoidptr]
  (FnBody.forward "jgrapht_capi_import_string_graph6sparse6" [CallArg.thread, CallArg.param 0, CallArg.param 1, CallArg.param 2, CallArg.param 3, CallArg.param 4]),
CFun.mk "jgrapht_isomorphism_exec_vf2" CType.cint
  [CParam.mk "g1" CType.cvoidptr, CParam.mk "g2" CType.cvoidptr, CParam.mk "exist_iso_res" CType.cintptr, CParam.mk "graph_mapping_it_res" CType.cvoidptrptr]
  (FnBody.forward "jgrapht_capi_isomorphism_exec_vf2" [CallArg.thread, CallArg.param 0, CallArg.param 1, CallArg.param 2, CallArg.param 3]),
CFun.mk "jgrapht_isomorphism_exec_vf2_subgraph" CType.cint
  [CParam.mk "g1" CType.cvoidptr, CParam.mk "g2" CType.cvoidptr, CParam.mk "exist_iso_res" CType.cintptr, CParam.mk "graph_mapping_it_res" CType.cvoidptrptr]
  (FnBody.forward "jgrapht_capi_isomorphism_exec_vf2_subgraph" [CallArg.thread, CallArg.param 0, CallArg.param 1, CallArg.param 2, CallArg.param 3]),
CFun.mk "jgrapht_isomorphism_graph_mapping_edge_correspondence" CType.cint
  [CParam.mk "graph_mapping" CType.cvoidptr, CParam.mk "edge" CType.cint, CParam.mk "forward" CType.cint, CParam.mk "exists_edge_res" CType.cintptr, CParam.mk "edge_res" CType.cintptr]
  (FnBody.forward "jgrapht_capi_isomorphism_graph_mapping_edge_correspondence" [CallArg.thread, CallArg.param 0, CallArg.param 1, CallArg.param 2, CallArg.param 3, CallArg.param 4]),
CFun.mk "jgrapht_isomorphism_graph_mapping_vertex_correspondence" CType.cint
  [CParam.mk "graph_mapping" CType.cvoidptr, CParam.mk "vertex" CType.cint, CParam.mk "forward" CType.cint, CParam.mk "exist_vertex_res" CType.cintptr, CParam.mk "vertex_res" CType.cintptr]
  (FnBody.forward "jgrapht_capi_isomorphism_graph_mapping_vertex_correspondence" [CallArg.thread, CallArg.param 0, CallArg.param 1, CallArg.param 2, CallArg.param 3, CallArg.param 4]),
CFun.mk "jgrapht_it_next_int" CType.cint
  [CParam.mk "it" CType.cvoidptr, CParam.mk "res" CType.cintptr]
  (FnBody.forward "jgrapht_capi_it_next_int" [CallArg.thread, CallArg.param 0, CallArg.param 1]),
CFun.mk "jgrapht_it_next_double" CType.cint
  [CParam.mk "it" CType.cvoidptr, CParam.mk "res" CType.cdoubleptr]
  (FnBody.forward "jgrapht_capi_it_next_double" [CallArg.thread, CallArg.param 0, CallArg.param 1]),
CFun.mk "jgrapht_it_next_object" CType.cint
  [CParam.mk "it" CType.cvoidptr, CParam.mk "res" CType.cvoidptrptr]
  (FnBody.forward "jgrapht_capi_it_next_object" [CallArg.thread, CallArg.param 0, CallArg.param 1]),
CFun.mk "jgrapht_it_hasnext" CType.cint
  [CParam.mk "it" CType.cvoidptr, CParam.mk "res" CType.cintptr]
  (FnBody.forward "jgrapht_capi_it_hasnext" [CallArg.thread, CallArg.param 0, CallArg.param 1]),
CFun.mk "jgrapht_list_create" CType.cint
  [CParam.mk "res" CType.cvoidptrptr]
  (FnBody.forward "jgrapht_capi_list_create" [CallArg.thread, CallArg.param 0]),
CFun.mk "jgrapht_list_it_create" CType.cint
  [CParam.mk "list" CType.cvoidptr, CParam.mk "res" CType.cvoidptrptr]
  (FnBody.forward "jgrapht_capi_list_it_create" [CallArg.thread, CallArg.param 0, CallArg.param 1]),
CFun.mk "jgrapht_list_size" CType.cint
  [CParam.mk "list" CType.cvoidptr, CParam.mk "res" CType.cintptr]
  (FnBody.forward "jgrapht_capi_list_size" [CallArg.thread, CallArg.param 0, CallArg.param 1]),
CFun.mk "jgrapht_list_int_add" CType.cint
  [CParam.mk "list" CType.cvoidptr, CParam.mk "e" CType.cint, CParam.mk "res" CType.cintptr]
  (FnBody.forward "jgrapht_capi_list_int_add" [CallArg.thread, CallArg.param 0, CallArg.param 1, CallArg.param 2]),
CFun.mk "jgrapht_list_double_add" CType.cint
  [CParam.mk "list" CType.cvoidptr, CParam.mk "e" CType.cdouble, CParam.mk "res" CType.cintptr]
  (FnBody.forward "jgrapht_capi_list_double_add" [CallArg.thread, CallArg.param 0, CallArg.param 1, CallArg.param 2]),
CFun.mk "jgrapht_list_edge_pair_add" CType.cint
  [CParam.mk "list" CType.cvoidptr, CParam.mk "source" CType.cint, CParam.mk "target" CType.cint, CParam.mk "res" CType.cintptr]
  (FnBody.forward "jgrapht_capi_list_edge_pair_add" [CallArg.thread, CallArg.param 0, CallArg.param 1, CallArg.param 2, CallArg.param 3]),
CFun.mk "jgrapht_list_edge_triple_add" CType.cint
  [CParam.mk "list" CType.cvoidptr, CParam.mk "source" CType.cint, CParam.mk "target" CType.cint, CParam.mk "weight" CType.cdouble, CParam.mk "res" CType.cintptr]
  (FnBody.forward "jgrapht_capi_list_edge_triple_add" [CallArg.thread, CallArg.param 0, CallArg.param 1, CallArg.param 2, CallArg.param 3, CallArg.param 4]),
CFun.mk "jgrapht_list_int_remove" CType.cint
  [CParam.mk "list" CType.cvoidptr, CParam.mk "e" CType.cint]
  (FnBody.forward "jgrapht_capi_list_int_remove" [CallArg.thread, CallArg.param 0, CallArg.param 1]),
CFun.mk "jgrapht_list_double_remove" CType.cint
  [CParam.mk "list" CType.cvoidptr, CParam.mk "e" CType.cdouble]
  (FnBody.forward "jgrapht_capi_list_double_remove" [CallArg.thread, CallArg.param 0, CallArg.param 1]),
CFun.mk "jgrapht_list_int_contains" CType.cint
  [CParam.mk "list" CType.cvoidptr, CParam.mk "e" CType.cint, CParam.mk "res" CType.cintptr]
  (FnBody.forward "jgrapht_capi_list_int_contains" [CallArg.thread, CallArg.param 0, CallArg.param 1, CallArg.param 2]),
CFun.mk "jgrapht_list_double_contains" CType.cint
  [CParam.mk "list" CType.cvoidptr, CParam.mk "e" CType.cdouble, CParam.mk "res" CType.cintptr]
  (FnBody.forward "jgrapht_capi_list_double_contains" [CallArg.thread, CallArg.param 0, CallArg.param 1, CallArg.param 2]),
CFun.mk "jgrapht_list_clear" CType.cint
  [CParam.mk "list" CType.cvoidptr]
  (FnBody.forward "jgrapht_capi_list_clear" [CallArg.thread, CallArg.param 0]),
CFun.mk "jgrapht_map_create" CType.cint
  [CParam.mk "res" CType.cvoidptrptr]
  (FnBody.forward "jgrapht_capi_map_create" [CallArg.thread, CallArg.param 0]),
CFun.mk "jgrapht_map_linked_create" CType.cint
  [CParam.mk "res" CType.cvoidptrptr]
  (FnBody.forward "jgrapht_capi_map_linked_create" [CallArg.thread, CallArg.param 0]),
CFun.mk "jgrapht_map_keys_it_create" CType.cint
  [CParam.mk "map" CType.cvoidptr, CParam.mk "res" CType.cvoidptrptr]
  (FnBody.forward "jgrapht_capi_map_keys_it_create" [CallArg.thread, CallArg.param 0, CallArg.param 1]),
CFun.mk "jgrapht_map_size" CType.cint
  [CParam.mk "map" CType.cvoidptr, CParam.mk "res" CType.cintptr]
  (FnBody.forward "jgrapht_capi_map_size" [CallArg.thread, CallArg.param 0, CallArg.param 1]),
CFun.mk "jgrapht_map_values_it_create" CType.cint
  [CParam.mk "map" CType.cvoidptr, CParam.mk "res" CType.cvoidptrptr]
  (FnBody.forward "jgrapht_capi_map_values_it_create" [CallArg.thread, CallArg.param 0, CallArg.param 1]),
CFun.mk "jgrapht_map_int_double_put" CType.cint
  [CParam.mk "map" CType.cvoidptr, CParam.mk "key" CType.cint, CParam.mk "value" CType.cdouble]
  (FnBody.forward "jgrapht_capi_map_int_double_put" [CallArg.thread, CallArg.param 0, CallArg.param 1, CallArg.param 2]),
CFun.mk "jgrapht_map_int_int_put" CType.cint
  [CParam.mk "map" CType.cvoidptr, CParam.mk "key" CType.cint, CParam.mk "value" CType.cint]
  (FnBody.forward "jgrapht_capi_map_int_int_put" [CallArg.thread, CallArg.param 0, CallArg.param 1, CallArg.param 2]),
CFun.mk "jgrapht_map_int_double_get" CType.cint
  [CParam.mk "map" CType.cvoidptr, CParam.mk "key" CType.cint, CParam.mk "res" CType.cdoubleptr]
  (FnBody.forward "jgrapht_capi_map_int_double_get" [CallArg.thread, CallArg.param 0, CallArg.param 1, CallArg.param 2]),
CFun.mk "jgrapht_map_int_int_get" CType.cint
  [CParam.mk "map" CType.cvoidptr, CParam.mk "key" CType.cint, CParam.mk "res" CType.cintptr]
  (FnBody.forward "jgrapht_capi_map_int_int_get" [CallArg.thread, CallArg.param 0, CallArg.param 1, CallArg.param 2]),
CFun.mk "jgrapht_map_int_contains_key" CType.cint
  [CParam.mk "map" CType.cvoidptr, CParam.mk "key" CType.cint, CParam.mk "res" CType.cintptr]
  (FnBody.forward "jgrapht_capi_map_int_contains_key" [CallArg.thread, CallArg.param 0, CallArg.param 1, CallArg.param 2]),
CFun.mk "jgrapht_map_int_double_remove" CType.cint
  [CParam.mk "map" CType.cvoidptr, CParam.mk "key" CType.cint, CParam.mk "res" CType.cdoubleptr]
  (FnBody.forward "jgrapht_capi_map_int_double_remove" [CallArg.thread, CallArg.param 0, CallArg.param 1, CallArg.param 2]),
CFun.mk "jgrapht_map_int_int_remove" CType.cint
  [CParam.mk "map" CType.cvoidptr, CParam.mk "key" CType.cint, CParam.mk "res" CType.cintptr]
  (FnBody.forward "jgrapht_capi_map_int_int_remove" [CallArg.thread, CallArg.param 0, CallArg.param 1, CallArg.param 2]),
CFun.mk "jgrapht_map_clear" CType.cint
  [CParam.mk "map" CType.cvoidptr]
  (FnBody.forward "jgrapht_capi_map_clear" [CallArg.thread, CallArg.param 0]),
CFun.mk "jgrapht_matching_exec_greedy_general_max_card" CType.cint
  [CParam.mk "g" CType.cvoidptr, CParam.mk "weight_res" CType.cdoubleptr, CParam.mk "res" CType.cvoidptrptr]
  (FnBody.forward "jgrapht_capi_matching_exec_greedy_general_max_card" [CallArg.thread, CallArg.param 0, CallArg.param 1, CallArg.param 2]),
CFun.mk "jgrapht_matching_exec_custom_greedy_general_max_card" CType.cint
  [CParam.mk "g" CType.cvoidptr, CParam.mk "sort" CType.cint, CParam.mk "weight_res" CType.cdoubleptr, CParam.mk "res" CType.cvoidptrptr]
  (FnBody.forward "jgrapht_capi_matching_exec_custom_greedy_general_max_card" [CallArg.thread, CallArg.param 0, CallArg.param 1, CallArg.param 2, CallArg.param 3]),
CFun.mk "jgrapht_matching_exec_edmonds_general_max_card_dense" CType.cint
  [CParam.mk "g" CType.cvoidptr, CParam.mk "weight_res" CType.cdoubleptr, CParam.mk "res" CType.cvoidptrptr]
  (FnBody.forward "jgrapht_capi_matching_exec_edmonds_general_max_card_dense" [CallArg.thread, CallArg.param 0, CallArg.param 1, CallArg.param 2]),
CFun.mk "jgrapht_matching_exec_edmonds_general_max_card_sparse" CType.cint
  [CParam.mk "g" CType.cvoidptr, CParam.mk "weight_res" CType.cdoubleptr, CParam.mk "res" CType.cvoidptrptr]
  (FnBody.forward "jgrapht_capi_matching_exec_edmonds_general_max_card_sparse" [CallArg.thread, CallArg.param 0, CallArg.param 1, CallArg.param 2]),
CFun.mk "jgrapht_matching_exec_greedy_general_max_weight" CType.cint
  [CParam.mk "g" CType.cvoidptr, CParam.mk "weight_res" CType.cdoubleptr, CParam.mk "res" CType.cvoidptrptr]
  (FnBody.forward "jgrapht_capi_matching_exec_greedy_general_max_weight" [CallArg.thread, CallArg.param 0, CallArg.param 1, CallArg.param 2]),
CFun.mk "jgrapht_matching_exec_custom_greedy_general_max_weight" CType.cint
  [CParam.mk "g" CType.cvoidptr, CParam.mk "normalize_edge_costs" CType.cint, CParam.mk "epsilon" CType.cdouble, CParam.mk "weight_res" CType.cdoubleptr, CParam.mk "res" CType.cvoidptrptr]
  (FnBody.forward "jgrapht_capi_matching_exec_custom_greedy_general_max_weight" [CallArg.thread, CallArg.param 0, CallArg.param 1, CallArg.param 2, CallArg.param 3, CallArg.param 4]),
CFun.mk "jgrapht_matching_exec_pathgrowing_max_weight" CType.cint
  [CParam.mk "g" CType.cvoidptr, CParam.mk "weight_res" CType.cdoubleptr, CParam.mk "res" CType.cvoidptrptr]
  (FnBody.forward "jgrapht_capi_matching_exec_pathgrowing_max_weight" [CallArg.thread, CallArg.param 0, CallArg.param 1, CallArg.param 2]),
CFun.mk "jgrapht_matching_exec_blossom5_general_max_weight" CType.cint
  [CParam.mk "g" CType.cvoidptr, CParam.mk "weight_res" CType.cdoubleptr, CParam.mk "res" CType.cvoidptrptr]
  (FnBody.forward "jgrapht_capi_matching_exec_blossom5_general_max_weight" [CallArg.thread, CallArg.param 0, CallArg.param 1, CallArg.param 2]),
CFun.mk "jgrapht_matching_exec_blossom5_general_min_weight" CType.cint
  [CParam.mk "g" CType.cvoidptr, CParam.mk "weight_res" CType.cdoubleptr, CParam.mk "res" CType.cvoidptrptr]
  (FnBody.forward "jgrapht_capi_matching_exec_blossom5_general_min_weight" [CallArg.thread, CallArg.param 0, CallArg.param 1, CallArg.param 2]),
CFun.mk "jgrapht_matching_exec_blossom5_general_perfect_max_weight" CType.cint
  [CParam.mk "g" CType.cvoidptr, CParam.mk "weight_res" CType.cdoubleptr, CParam.mk "res" CType.cvoidptrptr]
  (FnBody.forward "jgrapht_capi_matching_exec_blossom5_general_perfect_max_weight" [CallArg.thread, CallArg.param 0, CallArg.param 1, CallArg.param 2]),
CFun.mk "jgrapht_matching_exec_blossom5_general_perfect_min_weight" CType.cint
  [CParam.mk "g" CType.cvoidptr, CParam.mk "weight_res" CType.cdoubleptr, CParam.mk "res" CType.cvoidptrptr]
  (FnBody.forward "jgrapht_capi_matching_exec_blossom5_general_perfect_min_weight" [CallArg.thread, CallArg.param 0, CallArg.param 1, CallArg.param 2]),
CFun.mk "jgrapht_matching_exec_bipartite_max_card" CType.cint
  [CParam.mk "g" CType.cvoidptr, CParam.mk "weight_res" CType.cdoubleptr, CParam.mk "res" CType.cvoidptrptr]
  (FnBody.forward "jgrapht_capi_matching_exec_bipartite_max_card" [CallArg.thread, CallArg.param 0, CallArg.param 1, CallArg.param 2]),
CFun.mk "jgrapht_matching_exec_bipartite_perfect_min_weight" CType.cint
  [CParam.mk "g" CType.cvoidptr, CParam.mk "vertex_set1" CType.cvoidptr, CParam.mk "vertex_set2" CType.cvoidptr, CParam.mk "weight_res" CType.cdoubleptr, CParam.mk "res" CType.cvoidptrptr]
  (FnBody.forward "jgrapht_capi_matching_exec_bipartite_perfect_min_weight" [CallArg.thread, CallArg.param 0, CallArg.param 1, CallArg.param 2, CallArg.param 3, CallArg.param 4]),
CFun.mk "jgrapht_matching_exec_bipartite_max_weight" CType.cint
  [CParam.mk "g" CType.cvoidptr, CParam.mk "weight_res" CType.cdoubleptr, CParam.mk "res" CType.cvoidptrptr]
  (FnBody.forward "jgrapht_capi_matching_exec_bipartite_max_weight" [CallArg.thread, CallArg.param 0, CallArg.param 1, CallArg.param 2]),
CFun.mk "jgrapht_mst_exec_kruskal" CType.cint
  [CParam.mk "g" CType.cvoidptr, CParam.mk "weight_res" CType.cdoubleptr, CParam.mk "res" CType.cvoidptrptr]
  (FnBody.forward "jgrapht_capi_mst_exec_kruskal" [CallArg.thread, CallArg.param 0, CallArg.param 1, CallArg.param 2]),
CFun.mk "jgrapht_mst_exec_prim" CType.cint
  [CParam.mk "g" CType.cvoidptr, CParam.mk "weight_res" CType.cdoubleptr, CParam.mk "res" CType.cvoidptrptr]
  (FnBody.forward "jgrapht_capi_mst_exec_prim" [CallArg.thread, CallArg.param 0, CallArg.param 1, CallArg.param 2]),
CFun.mk "jgrapht_mst_exec_boruvka" CType.cint
  [CParam.mk "g" CType.cvoidptr, CParam.mk "weight_res" CType.cdoubleptr, CParam.mk "res" CType.cvoidptrptr]
  (FnBody.forward "jgrapht_capi_mst_exec_boruvka" [CallArg.thread, CallArg.param 0, CallArg.param 1, CallArg.param 2]),
CFun.mk "jgrapht_partition_exec_bipartite" CType.cint
  [CParam.mk "g" CType.cvoidptr, CParam.mk "res" CType.cintptr, CParam.mk "vertex_partition1" CType.cvoidptrptr, CParam.mk "vertex_partition2" CType.cvoidptrptr]
  (FnBody.forward "jgrapht_capi_partition_exec_bipartite" [CallArg.thread, CallArg.param 0, CallArg.param 1, CallArg.param 2, CallArg.param 3]),
CFun.mk "jgrapht_planarity_exec_boyer_myrvold" CType.cint
  [CParam.mk "g" CType.cvoidptr, CParam.mk "is_planar_res" CType.cintptr, CParam.mk "embedding_res" CType.cvoidptrptr, CParam.mk "kuratowski_subdivision_res" CType.cvoidptrptr]
  (FnBody.forward "jgrapht_capi_planarity_exec_boyer_myrvold" [CallArg.thread, CallArg.param 0, CallArg.param 1, CallArg.param 2, CallArg.param 3]),
CFun.mk "jgrapht_planarity_embedding_edges_around_vertex" CType.cint
  [CParam.mk "embedding" CType.cvoidptr, CParam.mk "vertex" CType.cint, CParam.mk "it_res" CType.cvoidptrptr]
  (FnBody.forward "jgrapht_capi_planarity_embedding_edges_around_vertex" [CallArg.thread, CallArg.param 0, CallArg.param 1, CallArg.param 2]),
CFun.mk "jgrapht_scoring_exec_alpha_centrality" CType.cint
  [CParam.mk "g" CType.cvoidptr, CParam.mk "res" CType.cvoidptrptr]
  (FnBody.forward "jgrapht_capi_scoring_exec_alpha_centrality" [CallArg.thread, CallArg.param 0, CallArg.param 1]),
CFun.mk "jgrapht_scoring_exec_custom_alpha_centrality" CType.cint
  [CParam.mk "g" CType.cvoidptr, CParam.mk "damping_factor" CType.cdouble, CParam.mk "exogenous_factor" CType.cdouble, CParam.mk "max_iterations" CType.cint, CParam.mk "tolerance" CType.cdouble, CParam.mk "res" CType.cvoidptrptr]
  (FnBody.forward "jgrapht_capi_scoring_exec_custom_alpha_centrality" [CallArg.thread, CallArg.param 0, CallArg.param 1, CallArg.param 2, CallArg.param 3, CallArg.param 4, CallArg.param 5]),
CFun.mk "jgrapht_scoring_exec_betweenness_centrality" CType.cint
  [CParam.mk "g" CType.cvoidptr, CParam.mk "res" CType.cvoidptrptr]
  (FnBody.forward "jgrapht_capi_scoring_exec_betweenness_centrality" [CallArg.thread, CallArg.param 0, CallArg.param 1]),
CFun.mk "jgrapht_scoring_exec_custom_betweenness_centrality" CType.cint
  [CParam.mk "g" CType.cvoidptr, CParam.mk "normalize" CType.cint, CParam.mk "res" CType.cvoidptrptr]
  (FnBody.forward "jgrapht_capi_scoring_exec_custom_betweenness_centrality" [CallArg.thread, CallArg.param 0, CallArg.param 1, CallArg.param 2]),
CFun.mk "jgrapht_scoring_exec_closeness_centrality" CType.cint
  [CParam.mk "g" CType.cvoidptr, CParam.mk "res" CType.cvoidptrptr]
  (FnBody.forward "jgrapht_capi_scoring_exec_closeness_centrality" [CallArg.thread, CallArg.param 0, CallArg.param 1]),
CFun.mk "jgrapht_scoring_exec_custom_closeness_centrality" CType.cint
  [CParam.mk "g" CType.cvoidptr, CParam.mk "incoming" CType.cint, CParam.mk "normalize" CType.cint, CParam.mk "res" CType.cvoidptrptr]
  (FnBody.forward "jgrapht_capi_scoring_exec_custom_closeness_centrality" [CallArg.thread, CallArg.param 0, CallArg.param 1, CallArg.param 2, CallArg.param 3]),
CFun.mk "jgrapht_scoring_exec_harmonic_centrality" CType.cint
  [CParam.mk "g" CType.cvoidptr, CParam.mk "res" CType.cvoidptrptr]
  (FnBody.forward "jgrapht_capi_scoring_exec_harmonic_centrality" [CallArg.thread, CallArg.param 0, CallArg.param 1]),
CFun.mk "jgrapht_scoring_exec_custom_harmonic_centrality" CType.cint
  [CParam.mk "g" CType.cvoidptr, CParam.mk "incoming" CType.cint, CParam.mk "normalize" CType.cint, CParam.mk "res" CType.cvoidptrptr]
  (FnBody.forward "jgrapht_capi_scoring_exec_custom_harmonic_centrality" [CallArg.thread, CallArg.param 0, CallArg.param 1, CallArg.param 2, CallArg.param 3]),
CFun.mk "jgrapht_scoring_exec_pagerank" CType.cint
  [CParam.mk "g" CType.cvoidptr, CParam.mk "res" CType.cvoidptrptr]
  (FnBody.forward "jgrapht_capi_scoring_exec_pagerank" [CallArg.thread, CallArg.param 0, CallArg.param 1]),
CFun.mk "jgrapht_scoring_exec_custom_pagerank" CType.cint
  [CParam.mk "g" CType.cvoidptr, CParam.mk "damping_factor" CType.cdouble, CParam.mk "iterations" CType.cint, CParam.mk "tolerance" CType.cdouble, CParam.mk "res" CType.cvoidptrptr]
  (FnBody.forward "jgrapht_capi_scoring_exec_custom_pagerank" [CallArg.thread, CallArg.param 0, CallArg.param 1, CallArg.param 2, CallArg.param 3, CallArg.param 4]),
CFun.mk "jgrapht_set_create" CType.cint
  [CParam.mk "res" CType.cvoidptrptr]
  (FnBody.forward "jgrapht_capi_set_create" [CallArg.thread, CallArg.param 0]),
CFun.mk "jgrapht_set_linked_create" CType.cint
  [CParam.mk "res" CType.cvoidptrptr]
  (FnBody.forward "jgrapht_capi_set_linked_create" [CallArg.thread, CallArg.param 0]),
CFun.mk "jgrapht_set_it_create" CType.cint
  [CParam.mk "set" CType.cvoidptr, CParam.mk "res" CType.cvoidptrptr]
  (FnBody.forward "jgrapht_capi_set_it_create" [CallArg.thread, CallArg.param 0, CallArg.param 1]),
CFun.mk "jgrapht_set_size" CType.cint
  [CParam.mk "set" CType.cvoidptr, CParam.mk "res" CType.cintptr]
  (FnBody.forward "jgrapht_capi_set_size" [CallArg.thread, CallArg.param 0, CallArg.param 1]),
CFun.mk "jgrapht_set_int_add" CType.cint
  [CParam.mk "set" CType.cvoidptr, CParam.mk "elem" CType.cint, CParam.mk "res" CType.cintptr]
  (FnBody.forward "jgrapht_capi_set_int_add" [CallArg.thread, CallArg.param 0, CallArg.param 1, CallArg.param 2]),
CFun.mk "jgrapht_set_double_add" CType.cint
  [CParam.mk "set" CType.cvoidptr, CParam.mk "elem" CType.cdouble, CParam.mk "res" CType.cintptr]
  (FnBody.forward "jgrapht_capi_set_double_add" [CallArg.thread, CallArg.param 0, CallArg.param 1, CallArg.param 2]),
CFun.mk "jgrapht_set_int_remove" CType.cint
  [CParam.mk "set" CType.cvoidptr, CParam.mk "elem" CType.cint]
  (FnBody.forward "jgrapht_capi_set_int_remove" [CallArg.thread, CallArg.param 0, CallArg.param 1]),
CFun.mk "jgrapht_set_double_remove" CType.cint
  [CParam.mk "set" CType.cvoidptr, CParam.mk "elem" CType.cdouble]
  (FnBody.forward "jgrapht_capi_set_double_remove" [CallArg.thread, CallArg.param 0, CallArg.param 1]),
CFun.mk "jgrapht_set_int_contains" CType.cint
  [CParam.mk "set" CType.cvoidptr, CParam.mk "elem" CType.cint, CParam.mk "res" CType.cintptr]
  (FnBody.forward "jgrapht_capi_set_int_contains" [CallArg.thread, CallArg.param 0, CallArg.param 1, CallArg.param 2]),
CFun.mk "jgrapht_set_double_contains" CType.cint
  [CParam.mk "set" CType.cvoidptr, CParam.mk "elem" CType.cdouble, CParam.mk "res" CType.cintptr]
  (FnBody.forward "jgrapht_capi_set_double_contains" [CallArg.thread, CallArg.param 0, CallArg.param 1, CallArg.param 2]),
CFun.mk "jgrapht_set_clear" CType.cint
  [CParam.mk "set" CType.cvoidptr]
  (FnBody.forward "jgrapht_capi_set_clear" [CallArg.thread, CallArg.param 0]),
CFun.mk "jgrapht_sp_exec_dijkstra_get_path_between_vertices" CType.cint
  [CParam.mk "g" CType.cvoidptr, CParam.mk "source" CType.cint, CParam.mk "target" CType.cint, CParam.mk "res" CType.cvoidptrptr]
  (FnBody.forward "jgrapht_capi_sp_exec_dijkstra_get_path_between_vertices" [CallArg.thread, CallArg.param 0, CallArg.param 1, CallArg.param 2, CallArg.param 3]),
CFun.mk "jgrapht_sp_exec_bidirectional_dijkstra_get_path_between_vertices" CType.cint
  [CParam.mk "g" CType.cvoidptr, CParam.mk "source" CType.cint, CParam.mk "target" CType.cint, CParam.mk "res" CType.cvoidptrptr]
  (FnBody.forward "jgrapht_capi_sp_exec_bidirectional_dijkstra_get_path_between_vertices" [CallArg.thread, CallArg.param 0, CallArg.param 1, CallArg.param 2, CallArg.param 3]),
CFun.mk "jgrapht_sp_exec_dijkstra_get_singlesource_from_vertex" CType.cint
  [CParam.mk "g" CType.cvoidptr, CParam.mk "source" CType.cint, CParam.mk "res" CType.cvoidptrptr]
  (FnBody.forward "jgrapht_capi_sp_exec_dijkstra_get_singlesource_from_vertex" [CallArg.thread, CallArg.param 0, CallArg.param 1, CallArg.param 2]),
CFun.mk "jgrapht_sp_exec_bellmanford_get_singlesource_from_vertex" CType.cint
  [CParam.mk "g" CType.cvoidptr, CParam.mk "source" CType.cint, CParam.mk "res" CType.cvoidptrptr]
  (FnBody.forward "jgrapht_capi_sp_exec_bellmanford_get_singlesource_from_vertex" [CallArg.thread, CallArg.param 0, CallArg.param 1, CallArg.param 2]),
CFun.mk "jgrapht_sp_exec_bfs_get_singlesource_from_vertex" CType.cint
  [CParam.mk "g" CType.cvoidptr, CParam.mk "source" CType.cint, CParam.mk "res" CType.cvoidptrptr]
  (FnBody.forward "jgrapht_capi_sp_exec_bfs_get_singlesource_from_vertex" [CallArg.thread, CallArg.param 0, CallArg.param 1, CallArg.param 2]),
CFun.mk "jgrapht_sp_exec_johnson_get_allpairs" CType.cint
  [CParam.mk "g" CType.cvoidptr, CParam.mk "res" CType.cvoidptrptr]
  (FnBody.forward "jgrapht_capi_sp_exec_johnson_get_allpairs" [CallArg.thread, CallArg.param 0, CallArg.param 1]),
CFun.mk "jgrapht_sp_exec_floydwarshall_get_allpairs" CType.cint
  [CParam.mk "g" CType.cvoidptr, CParam.mk "res" CType.cvoidptrptr]
  (FnBody.forward "jgrapht_capi_sp_exec_floydwarshall_get_allpairs" [CallArg.thread, CallArg.param 0, CallArg.param 1]),
CFun.mk "jgrapht_sp_singlesource_get_path_to_vertex" CType.cint
  [CParam.mk "g" CType.cvoidptr, CParam.mk "target" CType.cint, CParam.mk "res" CType.cvoidptrptr]
  (FnBody.forward "jgrapht_capi_sp_singlesource_get_path_to_vertex" [CallArg.thread, CallArg.param 0, CallArg.param 1, CallArg.param 2]),
CFun.mk "jgrapht_sp_allpairs_get_path_between_vertices" CType.cint
  [CParam.mk "g" CType.cvoidptr, CParam.mk "source" CType.cint, CParam.mk "target" CType.cint, CParam.mk "res" CType.cvoidptrptr]
  (FnBody.forward "jgrapht_capi_sp_allpairs_get_path_between_vertices" [CallArg.thread, CallArg.param 0, CallArg.param 1, CallArg.param 2, CallArg.param 3]),
CFun.mk "jgrapht_sp_allpairs_get_singlesource_from_vertex" CType.cint
  [CParam.mk "g" CType.cvoidptr, CParam.mk "source" CType.cint, CParam.mk "res" CType.cvoidptrptr]
  (FnBody.forward "jgrapht_capi_sp_allpairs_get_singlesource_from_vertex" [CallArg.thread, CallArg.param 0, CallArg.param 1, CallArg.param 2]),
CFun.mk "jgrapht_sp_exec_astar_get_path_between_vertices" CType.cint
  [CParam.mk "g" CType.cvoidptr, CParam.mk "source" CType.cint, CParam.mk "target" CType.cint, CParam.mk "heuristic" CType.cvoidptr, CParam.mk "res" CType.cvoidptrptr]
  (FnBody.forward "jgrapht_capi_sp_exec_astar_get_path_between_vertices" [CallArg.thread, CallArg.param 0, CallArg.param 1, CallArg.param 2, CallArg.param 3, CallArg.param 4]),
CFun.mk "jgrapht_sp_exec_bidirectional_astar_get_path_between_vertices" CType.cint
  [CParam.mk "g" CType.cvoidptr, CParam.mk "source" CType.cint, CParam.mk "target" CType.cint, CParam.mk "heuristic" CType.cvoidptr, CParam.mk "res" CType.cvoidptrptr]
  (FnBody.forward "jgrapht_capi_sp_exec_bidirectional_astar_get_path_between_vertices" [CallArg.thread, CallArg.param 0, CallArg.param 1, CallArg.param 2, CallArg.param 3, CallArg.param 4]),
CFun.mk "jgrapht_sp_exec_astar_alt_heuristic_get_path_between_vertices" CType.cint
  [CParam.mk "g" CType.cvoidptr, CParam.mk "source" CType.cint, CParam.mk "target" CType.cint, CParam.mk "landmarks_set" CType.cvoidptr, CParam.mk "res" CType.cvoidptrptr]
  (FnBody.forward "jgrapht_capi_sp_exec_astar_alt_heuristic_get_path_between_vertices" [CallArg.thread, CallArg.param 0, CallArg.param 1, CallArg.param 2, CallArg.param 3, CallArg.param 4]),
CFun.mk "jgrapht_sp_exec_bidirectional_astar_alt_heuristic_get_path_between_vertices" CType.cint
  [CParam.mk "g" CType.cvoidptr, CParam.mk "source" CType.cint, CParam.mk "target" CType.cint, CParam.mk "landmarks_set" CType.cvoidptr, CParam.mk "res" CType.cvoidptrptr]
  (FnBody.forward "jgrapht_capi_sp_exec_bidirectional_astar_alt_heuristic_get_path_between_vertices" [CallArg.thread, CallArg.param 0, CallArg.param 1, CallArg.param 2, CallArg.param 3, CallArg.param 4]),
CFun.mk "jgrapht_sp_exec_yen_get_k_loopless_paths_between_vertices" CType.cint
  [CParam.mk "g" CType.cvoidptr, CParam.mk "source" CType.cint, CParam.mk "target" CType.cint, CParam.mk "k" CType.cint, CParam.mk "res" CType.cvoidptrptr]
  (FnBody.forward "jgrapht_capi_sp_exec_yen_get_k_loopless_paths_between_vertices" [CallArg.thread, CallArg.param 0, CallArg.param 1, CallArg.param 2, CallArg.param 3, CallArg.param 4]),
CFun.mk "jgrapht_sp_exec_eppstein_get_k_paths_between_vertices" CType.cint
  [CParam.mk "g" CType.cvoidptr, CParam.mk "source" CType.cint, CParam.mk "target" CType.cint, CParam.mk "k" CType.cint, CParam.mk "res" CType.cvoidptrptr]
  (FnBody.forward "jgrapht_capi_sp_exec_eppstein_get_k_paths_between_vertices" [CallArg.thread, CallArg.param 0, CallArg.param 1, CallArg.param 2, CallArg.param 3, CallArg.param 4]),
CFun.mk "jgrapht_spanner_exec_greedy_multiplicative" CType.cint
  [CParam.mk "g" CType.cvoidptr, CParam.mk "k" CType.cint, CParam.mk "weight" CType.cdoubleptr, CParam.mk "res" CType.cvoidptrptr]
  (FnBody.forward "jgrapht_capi_spanner_exec_greedy_multiplicative" [CallArg.thread, CallArg.param 0, CallArg.param 1, CallArg.param 2, CallArg.param 3]),
CFun.mk "jgrapht_tour_tsp_random" CType.cint
  [CParam.mk "g" CType.cvoidptr, CParam.mk "seed" CType.clonglong, CParam.mk "res" CType.cvoidptrptr]
  (FnBody.forward "jgrapht_capi_tour_tsp_random" [CallArg.thread, CallArg.param 0, CallArg.param 1, CallArg.param 2]),
CFun.mk "jgrapht_tour_tsp_greedy_heuristic" CType.cint
  [CParam.mk "g" CType.cvoidptr, CParam.mk "res" CType.cvoidptrptr]
  (FnBody.forward "jgrapht_capi_tour_tsp_greedy_heuristic" [CallArg.thread, CallArg.param 0, CallArg.param 1]),
CFun.mk "jgrapht_tour_tsp_nearest_insertion_heuristic" CType.cint
  [CParam.mk "g" CType.cvoidptr, CParam.mk "res" CType.cvoidptrptr]
  (FnBody.forward "jgrapht_capi_tour_tsp_nearest_insertion_heuristic" [CallArg.thread, CallArg.param 0, CallArg.param 1]),
CFun.mk "jgrapht_tour_tsp_nearest_neighbor_heuristic" CType.cint
  [CParam.mk "g" CType.cvoidptr, CParam.mk "seed" CType.clonglong, CParam.mk "res" CType.cvoidptrptr]
  (FnBody.forward "jgrapht_capi_tour_tsp_nearest_neighbor_heuristic" [CallArg.thread, CallArg.param 0, CallArg.param 1, CallArg.param 2]),
CFun.mk "jgrapht_tour_metric_tsp_christofides" CType.cint
  [CParam.mk "g" CType.cvoidptr, CParam.mk "res" CType.cvoidptrptr]
  (FnBody.forward "jgrapht_capi_tour_metric_tsp_christofides" [CallArg.thread, CallArg.param 0, CallArg.param 1]),
CFun.mk "jgrapht_tour_metric_tsp_two_approx" CType.cint
  [CParam.mk "g" CType.cvoidptr, CParam.mk "res" CType.cvoidptrptr]
  (FnBody.forward "jgrapht_capi_tour_metric_tsp_two_approx" [CallArg.thread, CallArg.param 0, CallArg.param 1]),
CFun.mk "jgrapht_tour_tsp_held_karp" CType.cint
  [CParam.mk "g" CType.cvoidptr, CParam.mk "res" CType.cvoidptrptr]
  (FnBody.forward "jgrapht_capi_tour_tsp_held_karp" [CallArg.thread, CallArg.param 0, CallArg.param 1]),
CFun.mk "jgrapht_tour_hamiltonian_palmer" CType.cint
  [CParam.mk "g" CType.cvoidptr, CParam.mk "res" CType.cvoidptrptr]
  (FnBody.forward "jgrapht_capi_tour_hamiltonian_palmer" [CallArg.thread, CallArg.param 0, CallArg.param 1]),
CFun.mk "jgrapht_tour_tsp_two_opt_heuristic" CType.cint
  [CParam.mk "g" CType.cvoidptr, CParam.mk "k" CType.cint, CParam.mk "min_cost_improvement" CType.cdouble, CParam.mk "seed" CType.clonglong, CParam.mk "res" CType.cvoidptrptr]
  (FnBody.forward "jgrapht_capi_tour_tsp_two_opt_heuristic" [CallArg.thread, CallArg.param 0, CallArg.param 1, CallArg.param 2, CallArg.param 3, CallArg.param 4]),
CFun.mk "jgrapht_tour_tsp_two_opt_heuristic_improve" CType.cint
  [CParam.mk "graph_path" CType.cvoidptr, CParam.mk "min_cost_improvement" CType.cdouble, CParam.mk "seed" CType.clonglong, CParam.mk "res" CType.cvoidptrptr]
  (FnBody.forward "jgrapht_capi_tour_tsp_two_opt_heuristic_improve" [CallArg.thread, CallArg.param 0, CallArg.param 1, CallArg.param 2, CallArg.param 3]),
CFun.mk "jgrapht_traverse_create_bfs_from_all_vertices_vit" CType.cint
  [CParam.mk "g" CType.cvoidptr, CParam.mk "res" CType.cvoidptrptr]
  (FnBody.forward "jgrapht_capi_traverse_create_bfs_from_all_vertices_vit" [CallArg.thread, CallArg.param 0, CallArg.param 1]),
CFun.mk "jgrapht_traverse_create_bfs_from_vertex_vit" CType.cint
  [CParam.mk "g" CType.cvoidptr, CParam.mk "v" CType.cint, CParam.mk "res" CType.cvoidptrptr]
  (FnBody.forward "jgrapht_capi_traverse_create_bfs_from_vertex_vit" [CallArg.thread, CallArg.param 0, CallArg.param 1, CallArg.param 2]),
CFun.mk "jgrapht_traverse_create_lex_bfs_vit" CType.cint
  [CParam.mk "g" CType.cvoidptr, CParam.mk "res" CType.cvoidptrptr]
  (FnBody.forward "jgrapht_capi_traverse_create_lex_bfs_vit" [CallArg.thread, CallArg.param 0, CallArg.param 1]),
CFun.mk "jgrapht_traverse_create_dfs_from_all_vertices_vit" CType.cint
  [CParam.mk "g" CType.cvoidptr, CParam.mk "res" CType.cvoidptrptr]
  (FnBody.forward "jgrapht_capi_traverse_create_dfs_from_all_vertices_vit" [CallArg.thread, CallArg.param 0, CallArg.param 1]),
CFun.mk "jgrapht_traverse_create_dfs_from_vertex_vit" CType.cint
  [CParam.mk "g" CType.cvoidptr, CParam.mk "v" CType.cint, CParam.mk "res" CType.cvoidptrptr]
  (FnBody.forward "jgrapht_capi_traverse_create_dfs_from_vertex_vit" [CallArg.thread, CallArg.param 0, CallArg.param 1, CallArg.param 2]),
CFun.mk "jgrapht_traverse_create_topological_order_vit" CType.cint
  [CParam.mk "g" CType.cvoidptr, CParam.mk "res" CType.cvoidptrptr]
  (FnBody.forward "jgrapht_capi_traverse_create_topological_order_vit" [CallArg.thread, CallArg.param 0, CallArg.param 1]),
CFun.mk "jgrapht_traverse_create_random_walk_from_vertex_vit" CType.cint
  [CParam.mk "g" CType.cvoidptr, CParam.mk "v" CType.cint, CParam.mk "res" CType.cvoidptrptr]
  (FnBody.forward "jgrapht_capi_traverse_create_random_walk_from_vertex_vit" [CallArg.thread, CallArg.param 0, CallArg.param 1, CallArg.param 2]),
CFun.mk "jgrapht_traverse_create_custom_random_walk_from_vertex_vit" CType.cint
  [CParam.mk "g" CType.cvoidptr, CParam.mk "v" CType.cint, CParam.mk "weighted" CType.cint, CParam.mk "max_steps" CType.clonglong, CParam.mk "seed" CType.clonglong, CParam.mk "res" CType.cvoidptrptr]
  (FnBody.forward "jgrapht_capi_traverse_create_custom_random_walk_from_vertex_vit" [CallArg.thread, CallArg.param 0, CallArg.param 1, CallArg.param 2, CallArg.param 3, CallArg.param 4, CallArg.param 5]),
CFun.mk "jgrapht_traverse_create_max_cardinality_vit" CType.cint
  [CParam.mk "g" CType.cvoidptr, CParam.mk "res" CType.cvoidptrptr]
  (FnBody.forward "jgrapht_capi_traverse_create_max_cardinality_vit" [CallArg.thread, CallArg.param 0, CallArg.param 1]),
CFun.mk "jgrapht_traverse_create_degeneracy_ordering_vit" CType.cint
  [CParam.mk "g" CType.cvoidptr, CParam.mk "res" CType.cvoidptrptr]
  (FnBody.forward "jgrapht_capi_traverse_create_degeneracy_ordering_vit" [CallArg.thread, CallArg.param 0, CallArg.param 1]),
CFun.mk "jgrapht_traverse_create_closest_first_from_vertex_vit" CType.cint
  [CParam.mk "g" CType.cvoidptr, CParam.mk "v" CType.cint, CParam.mk "res" CType.cvoidptrptr]
  (FnBody.forward "jgrapht_capi_traverse_create_closest_first_from_vertex_vit" [CallArg.thread, CallArg.param 0, CallArg.param 1, CallArg.param 2]),
CFun.mk "jgrapht_traverse_create_custom_closest_first_from_vertex_vit" CType.cint
  [CParam.mk "g" CType.cvoidptr, CParam.mk "v" CType.cint, CParam.mk "radius" CType.cdouble, CParam.mk "res" CType.cvoidptrptr]
  (FnBody.forward "jgrapht_capi_traverse_create_custom_closest_first_from_vertex_vit" [CallArg.thread, CallArg.param 0, CallArg.param 1, CallArg.param 2, CallArg.param 3]),
CFun.mk "jgrapht_vertexcover_exec_greedy" CType.cint
  [CParam.mk "g" CType.cvoidptr, CParam.mk "weight_res" CType.cdoubleptr, CParam.mk "res" CType.cvoidptrptr]
  (FnBody.forward "jgrapht_capi_vertexcover_exec_greedy" [CallArg.thread, CallArg.param 0, CallArg.param 1, CallArg.param 2]),
CFun.mk "jgrapht_vertexcover_exec_greedy_weighted" CType.cint
  [CParam.mk "g" CType.cvoidptr, CParam.mk "weight_vertex_map" CType.cvoidptr, CParam.mk "weight_res" CType.cdoubleptr, CParam.mk "res" CType.cvoidptrptr]
  (FnBody.forward "jgrapht_capi_vertexcover_exec_greedy_weighted" [CallArg.thread, CallArg.param 0, CallArg.param 1, CallArg.param 2, CallArg.param 3]),
CFun.mk "jgrapht_vertexcover_exec_clarkson" CType.cint
  [CParam.mk "g" CType.cvoidptr, CParam.mk "weight_res" CType.cdoubleptr, CParam.mk "res" CType.cvoidptrptr]
  (FnBody.forward "jgrapht_capi_vertexcover_exec_clarkson" [CallArg.thread, CallArg.param 0, CallArg.param 1, CallArg.param 2]),
CFun.mk "jgrapht_vertexcover_exec_clarkson_weighted" CType.cint
  [CParam.mk "g" CType.cvoidptr, CParam.mk "weight_vertex_map" CType.cvoidptr, CParam.mk "weight_res" CType.cdoubleptr, CParam.mk "res" CType.cvoidptrptr]
  (FnBody.forward "jgrapht_capi_vertexcover_exec_clarkson_weighted" [CallArg.thread, CallArg.param 0, CallArg.param 1, CallArg.param 2, CallArg.param 3]),
CFun.mk "jgrapht_vertexcover_exec_edgebased" CType.cint
  [CParam.mk "g" CType.cvoidptr, CParam.mk "weight_res" CType.cdoubleptr, CParam.mk "res" CType.cvoidptrptr]
  (FnBody.forward "jgrapht_capi_vertexcover_exec_edgebased" [CallArg.thread, CallArg.param 0, CallArg.param 1, CallArg.param 2]),
CFun.mk "jgrapht_vertexcover_exec_baryehudaeven" CType.cint
  [CParam.mk "g" CType.cvoidptr, CParam.mk "weight_res" CType.cdoubleptr, CParam.mk "res" CType.cvoidptrptr]
  (FnBody.forward "jgrapht_capi_vertexcover_exec_baryehudaeven" [CallArg.thread, CallArg.param 0, CallArg.param 1, CallArg.param 2]),
CFun.mk "jgrapht_vertexcover_exec_baryehudaeven_weighted" CType.cint
  [CParam.mk "g" CType.cvoidptr, CParam.mk "weight_vertex_map" CType.cvoidptr, CParam.mk "weight_res" CType.cdoubleptr, CParam.mk "res" CType.cvoidptrptr]
  (FnBody.forward "jgrapht_capi_vertexcover_exec_baryehudaeven_weighted" [CallArg.thread, CallArg.param 0, CallArg.param 1, CallArg.param 2, CallArg.param 3]),
CFun.mk "jgrapht_vertexcover_exec_exact" CType.cint
  [CParam.mk "g" CType.cvoidptr, CParam.mk "weight_res" CType.cdoubleptr, CParam.mk "res" CType.cvoidptrptr]
  (FnBody.forward "jgrapht_capi_vertexcover_exec_exact" [CallArg.thread, CallArg.param 0, CallArg.param 1, CallArg.param 2]),
CFun.mk "jgrapht_vertexcover_exec_exact_weighted" CType.cint
  [CParam.mk "g" CType.cvoidptr, CParam.mk "weight_vertex_map" CType.cvoidptr, CParam.mk "weight_res" CType.cdoubleptr, CParam.mk "res" CType.cvoidptrptr]
  (FnBody.forward "jgrapht_capi_vertexcover_exec_exact_weighted" [CallArg.thread, CallArg.param 0, CallArg.param 1, CallArg.param 2, CallArg.param 3]),
CFun.mk "jgrapht_vmLocatorSymbol" CType.cvoid
  []
  (FnBody.forward "vmLocatorSymbol" [CallArg.thread])
]

/-- true exactly for a forwarding body. -/
def FnBody.isForwardB : FnBody → Bool
  | FnBody.forward _ _ => true
  | _ => false

/-- callee of a forwarding body (empty string otherwise). -/
def calleeName : FnBody → String
  | FnBody.forward c _ => c
  | _ => ""

/-- call arguments of a forwarding body (empty list otherwise). -/
def argsOf : FnBody → List CallArg
  | FnBody.forward _ as => as
  | _ => []

/-- the two static globals of backend.c (lines 7-8): `thread` and `isolate`,
both initially NULL; `none` models a NULL pointer. -/
structure GlobalState where
  thread : Option Nat
  isolate : Option Nat
deriving DecidableEq

/-- the initial global state of the process: both statics NULL. -/
def initState : GlobalState := GlobalState.mk none none

/-- a value passed to the callee of a forwarding body: either the execution
context pointer (the static `thread`, possibly NULL) or a caller-supplied
argument value (`none` if the recorded index were out of range, which never
happens for the functions of backend.c). -/
inductive AVal (V : Type) where
  | ctx : Option Nat → AVal V
  | val : Option V → AVal V
deriving DecidableEq

/-- environment of external code: the capi library (an uninterpreted function
from callee name and argument vector to a status), and the outcomes of the
two graal calls made by the isolate lifecycle functions. -/
structure Oracles (V : Type) where
  capi : String → List (AVal V) → Int
  graalCreate : Option (Nat × Nat)
  graalDetach : Bool

/-- evaluate one recorded call argument against the global state and the
caller-supplied argument values. -/
def evalCallArg {V : Type} (st : GlobalState) (vals : List V) : CallArg → AVal V
  | CallArg.thread => AVal.ctx st.thread
  | CallArg.param i => AVal.val (vals.get? i)

/-- semantics of one wrapper call.  A forwarding body evaluates its recorded
arguments and invokes the capi oracle, leaving the global state untouched;
the isolate bodies follow lines 12-34 of backend.c, where `none` as overall
result models `exit(EXIT_FAILURE)` (process termination).  The Int component
is the returned status (0 for the void-returning custom bodies and the
attachment flag for `jgrapht_isolate_is_attached`). -/
def runBackend {V : Type} (o : Oracles V) (st : GlobalState) (f : CFun) (vals : List V) :
    Option (Int × GlobalState) :=
  match f.body with
  | FnBody.forward callee args => some (o.capi callee (args.map (evalCallArg st vals)), st)
  | FnBody.isolateCreateBody =>
    match st.thread with
    | some _ => some (0, st)
    | none =>
      match o.graalCreate with
      | some p => some (0, GlobalState.mk (some p.2) (some p.1))
      | none => none
  | FnBody.isolateDestroyBody =>
    match st.thread with
    | none => some (0, st)
    | some _ =>
      if o.graalDetach then some (0, GlobalState.mk none none) else none
  | FnBody.isolateIsAttachedBody =>
    some ((if st.thread.isSome then 1 else 0), st)

/-- one call of a trace: the external environment, the function called and
the caller-supplied values. -/
inductive BCall (V : Type) where
  | call : Oracles V → CFun → List V → BCall V

/-- run a trace of calls, threading the global state; `none` when some call
terminated the process. -/
def runCalls {V : Type} : List (BCall V) → GlobalState → Option GlobalState
  | [], st => some st
  | BCall.call o f vals :: rest, st =>
    match runBackend o st f vals with
    | none => none
    | some r => runCalls rest r.2

/-- whether a trace element invokes `jgrapht_isolate_create`. -/
def isCreateCall {V : Type} : BCall V → Bool
  | BCall.call _ f _ =>
    match f.body with
    | FnBody.isolateCreateBody => true
    | _ => false

/-- whether a trace element invokes `jgrapht_isolate_destroy`. -/
def isDestroyCall {V : Type} : BCall V → Bool
  | BCall.call _ f _ =>
    match f.body with
    | FnBody.isolateDestroyBody => true
    | _ => false

/-- a create call occurs in the trace and is not followed by a destroy call. -/
def createPending {V : Type} (tr : List (BCall V)) : Bool :=
  tr.foldl (fun b c => if isCreateCall c then true else if isDestroyCall c then false else b) false

/-- Modelled from the spec: the success status; every failure status is nonzero
(section 7 of the spec: "a failed call returns a non-zero/failure status"). -/
def statusSuccess : Int := 0

/-- Modelled from the spec: the `IllegalArgument` precondition-error code of the
spec's error taxonomy; the concrete value is unspecified there, only that it is
nonzero and distinct from the other codes. -/
def statusIllegalArgument : Int := 1

/-- Modelled from the spec: the `NoSuchElement` error code of the spec's error
taxonomy (absent id/key, or iterator exhaustion). -/
def statusNoSuchElement : Int := 2

/-- Modelled from the spec: the `Timeout` error code of the spec's error
taxonomy (deadline exceeded in a budgeted algorithm). -/
def statusTimeout : Int := 3

/-- Modelled from the spec: an edge of a graph held by the external library
behind a graph handle: integer edge id, ordered endpoint pair, and a numeric
weight (modelled over Int). -/
structure Edge where
  eid : Nat
  src : Nat
  dst : Nat
  weight : Int
deriving DecidableEq

/-- Modelled from the spec: a graph held behind a handle: the four creation-time
configuration flags, the vertex id set and the edge list (spec section 3). -/
structure Graph where
  directed : Bool
  allowSelfLoops : Bool
  allowMultipleEdges : Bool
  weighted : Bool
  vertices : List Nat
  edges : List Edge
deriving DecidableEq

/-- Modelled from the spec: `jgrapht_capi_graph_create` (not part of this
repository), per the contract `createGraph(directed, allowSelfLoops,
allowMultipleEdges, weighted) -> handle`: on success it returns status 0 and a
new empty graph with the requested configuration in the output slot. -/
def capiGraphCreate (directed allowSelfLoops allowMultipleEdges weighted : Bool) :
    Int × Graph :=
  (statusSuccess, Graph.mk directed allowSelfLoops allowMultipleEdges weighted [] [])

/-- Modelled from the spec: the state behind an iterator handle — the sequence
of values not yet consumed (iterators are single-pass, forward-only). -/
structure IterState (α : Type) where
  remaining : List α
deriving DecidableEq

/-- Modelled from the spec: `jgrapht_capi_it_hasnext` (not part of this
repository): yields through its output slot whether values remain; it never
fails (status 0) and never mutates the underlying source (the state component
is returned unchanged). -/
def itHasNext {α : Type} (it : IterState α) : Int × Bool × IterState α :=
  (statusSuccess, !it.remaining.isEmpty, it)

/-- Modelled from the spec: `jgrapht_capi_it_next_int` / `_next_double` /
`_next_object` (not part of this repository), uniformly typed over the element
kind α: yields the next value and the advanced cursor, or fails with
`NoSuchElement` when the iterator is exhausted. -/
def itNext {α : Type} (it : IterState α) : Except Int (α × IterState α) :=
  match it.remaining with
  | [] => Except.error statusNoSuchElement
  | v :: rest => Except.ok (v, IterState.mk rest)

/-- whether u and v are adjacent in g (an edge with the two as its endpoint
pair, in either orientation). -/
def adjacent (g : Graph) (u v : Nat) : Bool :=
  g.edges.any (fun e => (e.src == u && e.dst == v) || (e.src == v && e.dst == u))

/-- Modelled from the spec: the recursion of Bron-Kerbosch maximal-clique
enumeration behind `jgrapht_capi_clique_exec_bron_kerbosch` (not part of this
repository), with the spec's deadline modelled as a step budget: every
recursive step consumes one unit and an exhausted budget aborts the whole
enumeration with the `Timeout` error instead of returning the cliques
collected so far. -/
def bkAux (g : Graph) : Nat → List Nat → List Nat → List Nat →
    Except Int (List (List Nat))
  | 0, _, _, _ => Except.error statusTimeout
  | Nat.succ fuel, r, p, x =>
    match p with
    | [] => if x.isEmpty then Except.ok [r] else Except.ok []
    | v :: rest =>
      match bkAux g fuel (r ++ [v]) (rest.filter (adjacent g v)) (x.filter (adjacent g v)) with
      | Except.error e => Except.error e
      | Except.ok sub =>
        match bkAux g fuel r rest (v :: x) with
        | Except.error e => Except.error e
        | Except.ok further => Except.ok (sub ++ further)

/-- Modelled from the spec: clique enumeration over a graph with an explicit
timeout budget: enumerate maximal cliques, reporting `Timeout` when the
deadline is exceeded. -/
def cliqueExec (g : Graph) (timeout : Nat) : Except Int (List (List Nat)) :=
  bkAux g timeout [] g.vertices []

/-- current flow on edge e (flows are kept as an association list, absent
edges carrying flow 0). -/
def flowOf (fl : List (Nat × Int)) (e : Nat) : Int :=
  match fl.find? (fun p => p.1 == e) with
  | some p => p.2
  | none => 0

/-- overwrite the flow recorded for edge e. -/
def setFlow (fl : List (Nat × Int)) (e : Nat) (v : Int) : List (Nat × Int) :=
  (e, v) :: fl.filter (fun p => !(p.1 == e))

/-- residual capacity of one step of an augmenting path: forward steps may
still carry weight - flow, backward steps may cancel the recorded flow. -/
def stepResidual (g : Graph) (fl : List (Nat × Int)) (s : Nat × Bool) : Int :=
  match g.edges.find? (fun e => e.eid == s.1) with
  | some e => if s.2 then e.weight - flowOf fl e.eid else flowOf fl e.eid
  | none => 0

/-- depth-first search for an augmenting path from u to t in the residual
graph, fuelled; a path is a list of (edge id, forward?) steps. -/
def findAug (g : Graph) (fl : List (Nat × Int)) (t : Nat) :
    Nat → List Nat → Nat → List Edge → Option (List (Nat × Bool))
  | 0, _, _, _ => none
  | Nat.succ fuel, visited, u, work =>
    if u == t then some [] else
    match work with
    | [] => none
    | e :: es =>
      if e.src == u && stepResidual g fl (e.eid, true) > 0 && !(visited.contains e.dst) then
        match findAug g fl t fuel (e.dst :: visited) e.dst g.edges with
        | some path => some ((e.eid, true) :: path)
        | none => findAug g fl t fuel visited u es
      else if e.dst == u && stepResidual g fl (e.eid, false) > 0 && !(visited.contains e.src) then
        match findAug g fl t fuel (e.src :: visited) e.src g.edges with
        | some path => some ((e.eid, false) :: path)
        | none => findAug g fl t fuel visited u es
      else findAug g fl t fuel visited u es

/-- fuel bound for one augmenting-path search. -/
def searchFuel (g : Graph) : Nat :=
  (g.vertices.length + 1) * (g.edges.length + 2)

/-- bottleneck residual capacity along a path. -/
def bottleneck (g : Graph) (fl : List (Nat × Int)) (path : List (Nat × Bool)) : Int :=
  path.foldl (fun m s => min m (stepResidual g fl s))
    (g.edges.foldl (fun a e => a + max e.weight 0) 0 + 1)

/-- push b units of flow along a path. -/
def applyAug (g : Graph) (fl : List (Nat × Int)) (path : List (Nat × Bool)) : List (Nat × Int) :=
  let b := bottleneck g fl path
  path.foldl (fun f s => setFlow f s.1 (flowOf f s.1 + (if s.2 then b else -b))) fl

/-- repeatedly augment until no augmenting path remains (fuelled by total
capacity). -/
def maxflowLoop (g : Graph) (s t : Nat) : Nat → List (Nat × Int) → List (Nat × Int)
  | 0, fl => fl
  | Nat.succ fuel, fl =>
    match findAug g fl t (searchFuel g) [s] s g.edges with
    | none => fl
    | some path =>
      if bottleneck g fl path ≤ 0 then fl
      else maxflowLoop g s t fuel (applyAug g fl path)

/-- net flow out of the source. -/
def flowValue (g : Graph) (fl : List (Nat × Int)) (s : Nat) : Int :=
  g.edges.foldl (fun a e =>
    a + (if e.src == s then flowOf fl e.eid else 0)
      - (if e.dst == s then flowOf fl e.eid else 0)) 0

/-- source side of the induced minimum cut: the vertices still reachable from
the source in the final residual graph. -/
def cutSourceSide (g : Graph) (fl : List (Nat × Int)) (s : Nat) : List Nat :=
  g.vertices.filter (fun v => (findAug g fl v (searchFuel g) [s] s g.edges).isSome)

/-- Modelled from the spec: `jgrapht_capi_maxflow_exec_push_relabel` / `_dinic`
/ `_edmonds_karp` (not part of this repository), per the spec's maximum-flow
contract: require source ≠ sink, both existing vertices, a weighted graph and
nonnegative capacities (edge weights), failing with the `IllegalArgument`
precondition error before doing any work otherwise; on success return the flow
value, the per-edge flow map and the source side of a minimum cut — the three
values written to the three output slots. -/
def maxflowExec (g : Graph) (source sink : Nat) :
    Except Int (Int × List (Nat × Int) × List Nat) :=
  if source == sink then Except.error statusIllegalArgument
  else if !(g.vertices.contains source) then Except.error statusIllegalArgument
  else if !(g.vertices.contains sink) then Except.error statusIllegalArgument
  else if g.edges.any (fun e => e.weight < 0) then Except.error statusIllegalArgument
  else if !g.weighted then Except.error statusIllegalArgument
  else
    let fl := maxflowLoop g source sink (g.edges.foldl (fun a e => a + e.weight.toNat) 0 + 1) []
    Except.ok (flowValue g fl source, fl, cutSourceSide g fl source)

/-- value received (and forwarded to the capi) by
`jgrapht_attributes_store_put_long_attribute` when a caller passes the 64-bit
value v: the wrapper declares its value parameter with C type `int`, so the
argument undergoes C's conversion to a 32-bit signed integer. -/
def putLongForwardedValue (v : Int) : Int :=
  (v + 2 ^ 31) % 2 ^ 32 - 2 ^ 31

/-- a backend function follows the boundary discipline of claim C1: its return
value is the C int status forwarded from its single callee, so every produced
result can only leave through a pointer-typed output parameter and is never
returned as a bare value. -/
def boundaryDisciplined (f : CFun) : Bool :=
  f.ret == CType.cint && f.body.isForwardB

/-- the functions of backend.c that return void, a bare scalar or a bare
reference instead of an int status: the isolate lifecycle trio, the four
error-channel operations and the vm locator. -/
def bareReturnFuns : List String :=
  ["jgrapht_isolate_create", "jgrapht_isolate_destroy", "jgrapht_isolate_is_attached",
   "jgrapht_error_clear_errno", "jgrapht_error_get_errno", "jgrapht_error_get_errno_msg",
   "jgrapht_error_print_stack_trace", "jgrapht_vmLocatorSymbol"]

/-- suffix of a backend function name after the leading "jgrapht_". -/
def nameSuffix (f : CFun) : String := f.fname.drop 8

/-- a function is a pure pass-through of its corresponding capi function: its
body is a single returned call of jgrapht_capi_<suffix> passing the static
`thread` first and then the function's own parameters, unchanged and in
declaration order. -/
def passThroughOfCapi (f : CFun) : Bool :=
  match f.body with
  | FnBody.forward callee args =>
    callee == "jgrapht_capi_" ++ nameSuffix f &&
      args == CallArg.thread :: (List.range f.params.length).map CallArg.param
  | _ => false

/-- the backend functions that are not forwards of a capi function: the
isolate lifecycle trio (handwritten bodies over the static state) and the vm
locator (which forwards to `vmLocatorSymbol`, not a capi function). -/
def notCapiForwards : List String :=
  ["jgrapht_isolate_create", "jgrapht_isolate_destroy", "jgrapht_isolate_is_attached",
   "jgrapht_vmLocatorSymbol"]

/-- Bool test that p is a prefix of s (on the character lists). -/
def strHasPre (p s : String) : Bool := List.isPrefixOf p.data s.data

/-- the functions of the errors section: those whose name starts with
"jgrapht_error_". -/
def errorChannelFuns : List CFun :=
  backendFuns.filter (fun f => strHasPre "jgrapht_error_" f.fname)

/-- the functions of the iterators section: those whose name starts with
"jgrapht_it_". -/
def itFuns : List CFun :=
  backendFuns.filter (fun f => strHasPre "jgrapht_it_" f.fname)

/-- the graph-creation wrapper (backend.c lines 384-386). -/
def graphCreateFun : CFun :=
  CFun.mk "jgrapht_graph_create" CType.cint
    [CParam.mk "directed" CType.cint, CParam.mk "allowing_self_loops" CType.cint,
     CParam.mk "allowing_multiple_edges" CType.cint, CParam.mk "weighted" CType.cint,
     CParam.mk "res" CType.cvoidptrptr]
    (FnBody.forward "jgrapht_capi_graph_create"
      [CallArg.thread, CallArg.param 0, CallArg.param 1, CallArg.param 2, CallArg.param 3,
       CallArg.param 4])

/-- the isolate-creation wrapper (backend.c lines 12-19). -/
def isolateCreateFun : CFun :=
  CFun.mk "jgrapht_isolate_create" CType.cvoid [] FnBody.isolateCreateBody

/-- the isolate-destruction wrapper (backend.c lines 21-30). -/
def isolateDestroyFun : CFun :=
  CFun.mk "jgrapht_isolate_destroy" CType.cvoid [] FnBody.isolateDestroyBody

/-- the attachment query wrapper (backend.c lines 32-34). -/
def isolateIsAttachedFun : CFun :=
  CFun.mk "jgrapht_isolate_is_attached" CType.cint [] FnBody.isolateIsAttachedBody

/-- the error-channel clear wrapper (backend.c lines 208-210). -/
def clearErrnoFun : CFun :=
  CFun.mk "jgrapht_error_clear_errno" CType.cvoid []
    (FnBody.forward "jgrapht_capi_error_clear_errno" [CallArg.thread])

/-- the long-attribute put wrapper (backend.c lines 50-52). -/
def putLongFun : CFun :=
  CFun.mk "jgrapht_attributes_store_put_long_attribute" CType.cint
    [CParam.mk "store" CType.cvoidptr, CParam.mk "element" CType.clonglong,
     CParam.mk "key" CType.cstring, CParam.mk "value" CType.cint]
    (FnBody.forward "jgrapht_capi_attributes_store_put_long_attribute"
      [CallArg.thread, CallArg.param 0, CallArg.param 1, CallArg.param 2, CallArg.param 3])

/-- the common signature of the three maximum-flow wrappers: graph handle,
source, sink, and the three distinct output slots. -/
def maxflowParamSig : List CParam :=
  [CParam.mk "g" CType.cvoidptr, CParam.mk "source" CType.cint, CParam.mk "sink" CType.cint,
   CParam.mk "valueRes" CType.cdoubleptr, CParam.mk "flowMapRes" CType.cvoidptrptr,
   CParam.mk "cutSourcePartitionRes" CType.cvoidptrptr]

/-- a trivial concrete oracle environment over Unit values, used by witnesses. -/
def oUnit : Oracles Unit := Oracles.mk (fun _ _ => 0) (some (1, 1)) true

/-- a one-edge weighted directed graph, used by witnesses. -/
def gW : Graph := Graph.mk true false false true [0, 1] [Edge.mk 0 0 1 3]

/-- semantics of a forwarding body: the capi oracle is invoked on the evaluated
argument vector and the global state is left unchanged. -/
theorem runBackend_forward {V : Type} (o : Oracles V) (st : GlobalState) (f : CFun)
    (vals : List V) (c : String) (as : List CallArg) (h : f.body = FnBody.forward c as) :
    runBackend o st f vals = some (o.capi c (as.map (evalCallArg st vals)), st) := by
  cases f with
  | mk fn rt ps fb =>
    simp only at h
    subst h
    rfl

/-- evaluating the recorded parameter indices 0..n-1 against an argument list of
length n yields exactly those arguments, in order. -/
theorem range_map_getq {V : Type} (vals : List V) :
    (List.range vals.length).map (fun i => AVal.val (vals.get? i)) =
      vals.map (fun v => AVal.val (some v)) := by
  induction vals with
  | nil => rfl
  | cons v vs ih =>
    rw [List.length_cons, List.range_succ_eq_map, List.map_cons, List.map_map]
    exact congrArg (List.cons (AVal.val (some v))) ih

/-- the only failure bkAux ever produces is the Timeout status. -/
theorem bkAux_error (g : Graph) :
    ∀ (fuel : Nat) (r p x : List Nat) (e : Int),
      bkAux g fuel r p x = Except.error e → e = statusTimeout := by
  intro fuel
  induction fuel with
  | zero =>
    intro r p x e h
    simp only [bkAux] at h
    exact (Except.error.injEq _ _).mp h.symm
  | succ n ih =>
    intro r p x e h
    match p with
    | [] =>
      simp only [bkAux] at h
      split at h <;> simp at h
    | v :: rest =>
      simp only [bkAux] at h
      split at h
      next e1 heq =>
        cases h
        exact ih _ _ _ _ heq
      next sub heq =>
        split at h
        next e1 heq2 =>
          cases h
          exact ih _ _ _ _ heq2
        next further heq2 =>
          simp at h

/-- the attachment flag after a completed trace of calls is computed by folding
the create/destroy calls over the initial flag. -/
theorem runCalls_attached {V : Type} :
    ∀ (tr : List (BCall V)) (st st' : GlobalState), runCalls tr st = some st' →
      st'.thread.isSome =
        tr.foldl
          (fun b c => if isCreateCall c then true else if isDestroyCall c then false else b)
          st.thread.isSome := by
  intro tr
  induction tr with
  | nil =>
    intro st st' h
    simp only [runCalls, Option.some.injEq] at h
    subst h
    rfl
  | cons c rest ih =>
    intro st st' h
    cases c with
    | call o f vals =>
      cases f with
      | mk fn rt ps fb =>
        cases fb with
        | forward cal as =>
          simp only [runCalls, runBackend, List.foldl, isCreateCall, isDestroyCall] at h ⊢
          exact ih st st' h
        | isolateCreateBody =>
          simp only [runCalls, runBackend, List.foldl, isCreateCall, isDestroyCall] at h ⊢
          cases hth : st.thread with
          | some t =>
            rw [hth] at h
            simp only at h
            have := ih st st' h
            rw [this, hth]
            rfl
          | none =>
            rw [hth] at h
            cases hoc : o.graalCreate with
            | some p =>
              rw [hoc] at h
              simp only at h
              have := ih _ st' h
              rw [this]
              rfl
            | none =>
              rw [hoc] at h
              simp at h
        | isolateDestroyBody =>
          simp only [runCalls, runBackend, List.foldl, isCreateCall, isDestroyCall] at h ⊢
          cases hth : st.thread with
          | none =>
            rw [hth] at h
            simp only at h
            have := ih st st' h
            rw [this, hth]
            rfl
          | some t =>
            rw [hth] at h
            cases hod : o.graalDetach with
            | true =>
              rw [hod] at h
              simp only [if_true] at h
              have := ih _ st' h
              rw [this]
              rfl
            | false =>
              rw [hod] at h
              simp at h
        | isolateIsAttachedBody =>
          simp only [runCalls, runBackend, List.foldl, isCreateCall, isDestroyCall] at h ⊢
          exact ih st st' h

/-- C1, as stated, is false on the code: not every function of the boundary
returns an int status with results confined to output-parameter slots.  The
eight violators are exactly the isolate lifecycle trio, the four error-channel
operations and the vm locator: `jgrapht_isolate_create`/`_destroy` and
`jgrapht_error_clear_errno`/`_print_stack_trace` return void,
`jgrapht_isolate_is_attached` returns its boolean result bare,
`jgrapht_error_get_errno` returns the queried code bare as a status_t, and
`jgrapht_error_get_errno_msg` returns a bare char* reference. -/
theorem c1_boundary_counterexample :
    (backendFuns.all boundaryDisciplined) = false ∧
    (backendFuns.filter (fun f => !(boundaryDisciplined f))).map CFun.fname = bareReturnFuns := by
  decide

/-- C1 amended: every function of the backend boundary other than the
error-channel operations, the isolate lifecycle operations and the vm locator
takes explicit typed inputs, writes every produced result through an
output-parameter slot (its body being a single forwarded call whose int status
is the only value returned), and returns an integer status code. -/
theorem c1_boundary_amended :
    ∀ f ∈ backendFuns, f.fname ∉ bareReturnFuns → boundaryDisciplined f = true := by
  decide

/-- witness for c1_boundary_amended at the graph-creation wrapper. -/
theorem c1_boundary_amended_witness : boundaryDisciplined graphCreateFun = true :=
  c1_boundary_amended graphCreateFun (by decide) (by decide)

/-- C10, as stated, is false on the code: not every public backend function is
a pure pass-through of a corresponding capi function.
`jgrapht_isolate_is_attached` (like the other two isolate lifecycle functions
and the vm locator) calls no capi function at all: it computes `thread != NULL`
over the static state itself. -/
theorem c10_pass_through_counterexample :
    (backendFuns.all passThroughOfCapi) = false ∧
    isolateIsAttachedFun ∈ backendFuns ∧
    passThroughOfCapi isolateIsAttachedFun = false := by
  decide

/-- C10 amended: every public backend function except the three isolate
lifecycle functions and `jgrapht_vmLocatorSymbol` is a pure pass-through of
its corresponding capi function: its body is the single returned call
`jgrapht_capi_<suffix>(thread, params...)` with the arguments forwarded
unchanged and in order, and semantically it returns exactly the capi status,
performing no computation, validation or state change of its own. -/
theorem c10_pass_through_amended :
    ∀ f ∈ backendFuns, f.fname ∉ notCapiForwards →
      passThroughOfCapi f = true ∧
      ∀ (V : Type) (o : Oracles V) (st : GlobalState) (vals : List V),
        vals.length = f.params.length →
        runBackend o st f vals =
          some (o.capi ("jgrapht_capi_" ++ nameSuffix f)
            (AVal.ctx st.thread :: vals.map (fun v => AVal.val (some v))), st) := by
  intro f hf hn
  have hp : passThroughOfCapi f = true := by
    revert hn
    revert hf
    revert f
    decide
  refine ⟨hp, ?_⟩
  intro V o st vals hlen
  match hb : f.body with
  | FnBody.forward callee args =>
    unfold passThroughOfCapi at hp
    rw [hb] at hp
    simp only [Bool.and_eq_true, beq_iff_eq] at hp
    obtain ⟨hc, ha⟩ := hp
    rw [runBackend_forward o st f vals callee args hb, hc, ha]
    simp only [List.map_cons, List.map_map]
    rw [← hlen]
    have : (List.map (evalCallArg st vals ∘ CallArg.param) (List.range vals.length)) =
        (List.range vals.length).map (fun i => AVal.val (vals.get? i)) := rfl
    rw [this, range_map_getq]
    rfl
  | FnBody.isolateCreateBody =>
    rw [passThroughOfCapi, hb] at hp
    simp at hp
  | FnBody.isolateDestroyBody =>
    rw [passThroughOfCapi, hb] at hp
    simp at hp
  | FnBody.isolateIsAttachedBody =>
    rw [passThroughOfCapi, hb] at hp
    simp at hp

/-- witness for c10_pass_through_amended at the graph-creation wrapper. -/
theorem c10_pass_through_amended_witness :
    runBackend oUnit initState graphCreateFun [(), (), (), (), ()] =
      some (oUnit.capi ("jgrapht_capi_" ++ nameSuffix graphCreateFun)
        (AVal.ctx initState.thread ::
          [(), (), (), (), ()].map (fun v => AVal.val (some v))), initState) :=
  (c10_pass_through_amended graphCreateFun (by decide) (by decide)).2
    Unit oUnit initState [(), (), (), (), ()] (by decide)

/-- C8: all backend operations share the one execution context held in the two
process-wide statics: every forwarding wrapper passes the single global
`thread` pointer as the first argument of its capi call (hence one error
channel and one handle namespace per process), leaves the global state
unchanged, and — the statement being quantified over every global state,
including `initState` (before `jgrapht_isolate_create`) and the state left by
`jgrapht_isolate_destroy` — a call made while `thread` is NULL is still
forwarded to the capi with a NULL context instead of being rejected by the
wrapper. -/
theorem c8_single_context :
    ∀ f ∈ backendFuns, f.body.isForwardB = true →
      (argsOf f.body).head? = some CallArg.thread ∧
      ∀ (V : Type) (o : Oracles V) (st : GlobalState) (vals : List V),
        runBackend o st f vals =
          some (o.capi (calleeName f.body) ((argsOf f.body).map (evalCallArg st vals)), st) ∧
        ((argsOf f.body).map (evalCallArg st vals)).head? = some (AVal.ctx st.thread) := by
  intro f hf hfw
  have hhead : (argsOf f.body).head? = some CallArg.thread := by
    revert hfw
    revert hf
    revert f
    decide
  refine ⟨hhead, ?_⟩
  intro V o st vals
  constructor
  · match hb : f.body with
    | FnBody.forward c as =>
      rw [runBackend_forward o st f vals c as hb]
      rfl
    | FnBody.isolateCreateBody =>
      rw [hb] at hfw
      simp [FnBody.isForwardB] at hfw
    | FnBody.isolateDestroyBody =>
      rw [hb] at hfw
      simp [FnBody.isForwardB] at hfw
    | FnBody.isolateIsAttachedBody =>
      rw [hb] at hfw
      simp [FnBody.isForwardB] at hfw
  · rw [List.head?_map, hhead]
    rfl

/-- witness for c8_single_context at the graph-creation wrapper running on the
initial state, whose `thread` static is still NULL. -/
theorem c8_single_context_witness :
    (argsOf graphCreateFun.body).head? = some CallArg.thread ∧
    (runBackend oUnit initState graphCreateFun [(), (), (), (), ()] =
       some (oUnit.capi (calleeName graphCreateFun.body)
         ((argsOf graphCreateFun.body).map (evalCallArg initState [(), (), (), (), ()])),
         initState) ∧
     ((argsOf graphCreateFun.body).map
         (evalCallArg initState [(), (), (), (), ()])).head? =
       some (AVal.ctx initState.thread)) :=
  ⟨(c8_single_context graphCreateFun (by decide) (by decide)).1,
   (c8_single_context graphCreateFun (by decide) (by decide)).2 Unit oUnit initState
     [(), (), (), (), ()]⟩

/-- C9: the isolate lifecycle is idempotent.  Calling `jgrapht_isolate_create`
while a context is attached leaves the whole global state (thread and isolate)
unchanged and creates no second isolate; calling `jgrapht_isolate_destroy`
while no context is attached is a no-op; `jgrapht_isolate_is_attached` returns
1 exactly when `thread` is non-NULL; and over any completed trace of calls
started from the initial state, the attachment flag is true exactly when a
create call has occurred with no destroy call after it. -/
theorem c9_isolate_lifecycle :
    (isolateCreateFun ∈ backendFuns ∧ isolateDestroyFun ∈ backendFuns ∧
      isolateIsAttachedFun ∈ backendFuns) ∧
    (∀ (V : Type) (o : Oracles V) (st : GlobalState) (vals : List V),
       st.thread.isSome = true →
       runBackend o st isolateCreateFun vals = some (0, st)) ∧
    (∀ (V : Type) (o : Oracles V) (st : GlobalState) (vals : List V),
       st.thread = none →
       runBackend o st isolateDestroyFun vals = some (0, st)) ∧
    (∀ (V : Type) (o : Oracles V) (st : GlobalState) (vals : List V),
       runBackend o st isolateIsAttachedFun vals =
         some ((if st.thread.isSome then 1 else 0), st)) ∧
    (∀ (V : Type) (tr : List (BCall V)) (st' : GlobalState),
       runCalls tr initState = some st' → st'.thread.isSome = createPending tr) := by
  refine ⟨by decide, ?_, ?_, ?_, ?_⟩
  · intro V o st vals h
    cases hth : st.thread with
    | none =>
      rw [hth] at h
      simp at h
    | some t =>
      show (match st.thread with
        | some _ => some ((0 : Int), st)
        | none =>
          match o.graalCreate with
          | some p => some (0, GlobalState.mk (some p.2) (some p.1))
          | none => none) = some (0, st)
      rw [hth]
  · intro V o st vals h
    show (match st.thread with
      | none => some ((0 : Int), st)
      | some _ =>
        if o.graalDetach then some (0, GlobalState.mk none none) else none) = some (0, st)
    rw [h]
  · intro V o st vals
    rfl
  · intro V tr st' h
    exact runCalls_attached tr initState st' h

/-- witness for c9_isolate_lifecycle: a second create on an attached state is
the identity, and a destroy on the detached initial state is the identity. -/
theorem c9_isolate_lifecycle_witness :
    runBackend oUnit (GlobalState.mk (some 5) (some 7)) isolateCreateFun [] =
      some (0, GlobalState.mk (some 5) (some 7)) ∧
    runBackend oUnit initState isolateDestroyFun [] = some (0, initState) :=
  ⟨c9_isolate_lifecycle.2.1 Unit oUnit (GlobalState.mk (some 5) (some 7)) [] rfl,
   c9_isolate_lifecycle.2.2.1 Unit oUnit initState [] rfl⟩

/-- C2: the error channel consists of exactly the four operations of the errors
section — `jgrapht_error_clear_errno` (reset), `jgrapht_error_get_errno` and
`jgrapht_error_get_errno_msg` (read code and human-readable message) and the
stack-trace operation `jgrapht_error_print_stack_trace` — and each of them
forwards exactly the execution-context pointer (the static `thread`) to its
capi counterpart, so the last-error state it touches is scoped to that
context; semantically each runs to a `some` result for every state and oracle,
never terminating the caller's process. -/
theorem c2_error_channel :
    errorChannelFuns.map CFun.fname =
      ["jgrapht_error_clear_errno", "jgrapht_error_get_errno",
       "jgrapht_error_get_errno_msg", "jgrapht_error_print_stack_trace"] ∧
    ∀ f ∈ errorChannelFuns,
      f.body = FnBody.forward ("jgrapht_capi_" ++ nameSuffix f) [CallArg.thread] ∧
      ∀ (V : Type) (o : Oracles V) (st : GlobalState) (vals : List V),
        runBackend o st f vals =
          some (o.capi ("jgrapht_capi_" ++ nameSuffix f) [AVal.ctx st.thread], st) := by
  constructor
  · decide
  · intro f hf
    have hb : f.body = FnBody.forward ("jgrapht_capi_" ++ nameSuffix f) [CallArg.thread] := by
      revert hf
      revert f
      decide
    refine ⟨hb, ?_⟩
    intro V o st vals
    rw [runBackend_forward o st f vals _ _ hb]
    rfl

/-- witness for c2_error_channel at the clear operation. -/
theorem c2_error_channel_witness :
    clearErrnoFun.body =
      FnBody.forward ("jgrapht_capi_" ++ nameSuffix clearErrnoFun) [CallArg.thread] ∧
    runBackend oUnit initState clearErrnoFun [] =
      some (oUnit.capi ("jgrapht_capi_" ++ nameSuffix clearErrnoFun)
        [AVal.ctx initState.thread], initState) :=
  ⟨(c2_error_channel.2 clearErrnoFun (by decide)).1,
   (c2_error_channel.2 clearErrnoFun (by decide)).2 Unit oUnit initState []⟩

/-- C3: the attribute store offers put operations for all five declared types,
whose value parameters are declared as C int (boolean), int, int (!), double
and char* respectively — the long put is the bug: backend.c line 50 declares
the value parameter of `jgrapht_attributes_store_put_long_attribute` as `int`
instead of `long long int`, so a 64-bit value is truncated on the call
boundary: passing v = 2^31 stores -2^31, not v. -/
theorem c3_put_long_truncates :
    putLongFun ∈ backendFuns ∧
    putLongFun.params.map CParam.pty =
      [CType.cvoidptr, CType.clonglong, CType.cstring, CType.cint] ∧
    ((backendFuns.filter
        (fun f => strHasPre "jgrapht_attributes_store_put_" f.fname)).map
      (fun f => (f.params.map CParam.pty).getD 3 CType.cvoid)) =
      [CType.cint, CType.cint, CType.cint, CType.cdouble, CType.cstring] ∧
    putLongForwardedValue 2147483648 = -2147483648 ∧
    ¬ putLongForwardedValue 2147483648 = 2147483648 := by
  decide

/-- C4: the graph-creation operation takes exactly the four creation-time
configuration flags — directed, allowing_self_loops, allowing_multiple_edges,
weighted — plus the single output slot, forwards them unchanged to
`jgrapht_capi_graph_create`, and (the capi behaviour being modelled from the
spec) on success writes a new empty graph with the requested configuration to
the output slot and returns the success status. -/
theorem c4_graph_create :
    graphCreateFun ∈ backendFuns ∧
    graphCreateFun.ret = CType.cint ∧
    graphCreateFun.params.map CParam.pname =
      ["directed", "allowing_self_loops", "allowing_multiple_edges", "weighted", "res"] ∧
    graphCreateFun.params.map CParam.pty =
      [CType.cint, CType.cint, CType.cint, CType.cint, CType.cvoidptrptr] ∧
    passThroughOfCapi graphCreateFun = true ∧
    ∀ d s m w : Bool,
      capiGraphCreate d s m w = (statusSuccess, Graph.mk d s m w [] []) := by
  decide

/-- C5: the three maximum-flow operations are exactly pushRelabel, dinic and
edmondsKarp; each takes a graph handle, source and sink and the three distinct
output slots (valueRes, flowMapRes, cutSourcePartitionRes), forwarding all of
them unchanged to the capi; and — the capi behaviour being modelled from the
spec — the operation fails with the nonzero IllegalArgument precondition
status when source equals sink, when either vertex is absent or when a
capacity (edge weight) is negative, and on success yields all three results:
the flow value, the per-edge flow map and the source side of a minimum cut. -/
theorem c5_maxflow :
    ((backendFuns.filter (fun f => strHasPre "jgrapht_maxflow_" f.fname)).map CFun.fname =
       ["jgrapht_maxflow_exec_push_relabel", "jgrapht_maxflow_exec_dinic",
        "jgrapht_maxflow_exec_edmonds_karp"] ∧
     ∀ f ∈ backendFuns.filter (fun f => strHasPre "jgrapht_maxflow_" f.fname),
       f.params = maxflowParamSig ∧ f.ret = CType.cint ∧ passThroughOfCapi f = true) ∧
    statusIllegalArgument ≠ statusSuccess ∧
    (∀ (g : Graph) (s t : Nat),
       (s = t ∨ s ∉ g.vertices ∨ t ∉ g.vertices ∨ ∃ e ∈ g.edges, e.weight < 0) →
       maxflowExec g s t = Except.error statusIllegalArgument) ∧
    (∀ (g : Graph) (s t : Nat),
       g.weighted = true → s ≠ t → s ∈ g.vertices → t ∈ g.vertices →
       (∀ e ∈ g.edges, 0 ≤ e.weight) →
       ∃ v fm cp, maxflowExec g s t = Except.ok (v, fm, cp)) := by
  refine ⟨⟨by decide, by decide⟩, by decide, ?_, ?_⟩
  · intro g s t h
    unfold maxflowExec
    split_ifs with h1 h2 h3 h4 h5
    · rfl
    · rfl
    · rfl
    · rfl
    · rfl
    · exfalso
      rcases h with h | h | h | h
      · exact h1 (by simp [h])
      · exact h2 (by simpa using h)
      · exact h3 (by simpa using h)
      · exact h4 (by simpa using h)
  · intro g s t hw hst hs ht hnn
    have h1 : (s == t) = false := by simpa using hst
    have h2 : g.vertices.contains s = true := by simpa using hs
    have h3 : g.vertices.contains t = true := by simpa using ht
    have h4 : (g.edges.any fun e => decide (e.weight < 0)) = false := by
      simp only [List.any_eq_false]
      intro e he
      simpa using not_lt.mpr (hnn e he)
    simp [maxflowExec, h1, h2, h3, h4, hw]
    rw [if_pos hs, if_pos ht]
    exact ⟨_, _, _, rfl⟩

/-- witness for c5_maxflow: on the one-edge weighted graph gW, equal source and
sink fail and distinct valid endpoints succeed with the full result triple. -/
theorem c5_maxflow_witness :
    maxflowExec gW 0 0 = Except.error statusIllegalArgument ∧
    (∃ v fm cp, maxflowExec gW 0 1 = Except.ok (v, fm, cp)) :=
  ⟨c5_maxflow.2.2.1 gW 0 0 (Or.inl rfl),
   c5_maxflow.2.2.2 gW 0 1 rfl (by decide) (by decide) (by decide) (by decide)⟩

/-- C6: the budgeted algorithms of this backend are exactly the three
Bron-Kerbosch clique-enumeration variants — they are the only functions with a
timeout parameter, each taking (graph, long long timeout, output slot) and
forwarding them unchanged — and, the enumeration being modelled from the spec
with the deadline as a step budget, an exceeded deadline yields the nonzero
Timeout failure status, which is the only failure the enumeration ever
returns: it never returns a success status with a partial result. -/
theorem c6_clique_timeout :
    ((backendFuns.filter (fun f => f.params.any (fun p => p.pname == "timeout"))).map
        CFun.fname =
       ["jgrapht_clique_exec_bron_kerbosch", "jgrapht_clique_exec_bron_kerbosch_pivot",
        "jgrapht_clique_exec_bron_kerbosch_pivot_degeneracy_ordering"] ∧
     ∀ f ∈ backendFuns, strHasPre "jgrapht_clique_" f.fname = true →
       f.params.map CParam.pty = [CType.cvoidptr, CType.clonglong, CType.cvoidptrptr] ∧
       (f.params.map CParam.pname).get? 1 = some "timeout" ∧
       passThroughOfCapi f = true) ∧
    statusTimeout ≠ statusSuccess ∧
    (∀ g : Graph, cliqueExec g 0 = Except.error statusTimeout) ∧
    (∀ (g : Graph) (timeout : Nat) (e : Int),
       cliqueExec g timeout = Except.error e → e = statusTimeout) := by
  refine ⟨⟨by decide, by decide⟩, by decide, ?_, ?_⟩
  · intro g
    rfl
  · intro g timeout e h
    exact bkAux_error g timeout [] g.vertices [] e h

/-- witness for c6_clique_timeout: an exhausted budget on gW reports Timeout. -/
theorem c6_clique_timeout_witness :
    cliqueExec gW 0 = Except.error statusTimeout ∧ statusTimeout = statusTimeout :=
  ⟨c6_clique_timeout.2.2.1 gW, c6_clique_timeout.2.2.2 gW 0 statusTimeout rfl⟩

/-- C7: the iterator protocol consists of exactly the hasNext operation and the
next operation in its three element typings (int, double, object), all over a
single iterator-handle input: the functions of the iterators section are
exactly these four, each with one input handle and one typed output slot; and
— the iterator behaviour being modelled from the spec — hasNext yields its
boolean through the output slot with the success status and leaves the cursor
unchanged, while next yields the next value when one remains and fails with
the nonzero NoSuchElement status when the iterator is exhausted. -/
theorem c7_iterator_protocol :
    (itFuns.map CFun.fname =
       ["jgrapht_it_next_int", "jgrapht_it_next_double", "jgrapht_it_next_object",
        "jgrapht_it_hasnext"] ∧
     itFuns.map (fun f => f.params.map CParam.pty) =
       [[CType.cvoidptr, CType.cintptr], [CType.cvoidptr, CType.cdoubleptr],
        [CType.cvoidptr, CType.cvoidptrptr], [CType.cvoidptr, CType.cintptr]] ∧
     ∀ f ∈ itFuns, f.ret = CType.cint ∧ passThroughOfCapi f = true) ∧
    statusNoSuchElement ≠ statusSuccess ∧
    (∀ (α : Type) (it : IterState α),
       (itHasNext it).1 = statusSuccess ∧ (itHasNext it).2.2 = it ∧
       ((itHasNext it).2.1 = true ↔ it.remaining ≠ [])) ∧
    (∀ (α : Type) (it : IterState α),
       it.remaining = [] → itNext it = Except.error statusNoSuchElement) ∧
    (∀ (α : Type) (v : α) (rest : List α),
       itNext (IterState.mk (v :: rest)) = Except.ok (v, IterState.mk rest)) := by
  refine ⟨⟨by decide, by decide, by decide⟩, by decide, ?_, ?_, ?_⟩
  · intro α it
    refine ⟨rfl, rfl, ?_⟩
    simp [itHasNext]
  · intro α it h
    cases it with
    | mk rem =>
      simp only at h
      subst h
      rfl
  · intro α v rest
    rfl

/-- witness for c7_iterator_protocol: next on an exhausted iterator of naturals
fails with NoSuchElement. -/
theorem c7_iterator_protocol_witness :
    itNext (IterState.mk ([] : List Nat)) = Except.error statusNoSuchElement :=
  c7_iterator_protocol.2.2.2.1 Nat (IterState.mk []) rfl

end JGraphtBackend
